import Mathlib

/-!
# Verification of the V2ray configuration transformer and the Nginx supervisor

A shallow embedding of `common/v2ray/config.go` (`SetConfig` and the data
types it reads and builds) in the namespace `V2ray`, and of
`common/webserver/nginx.go` (`CheckNginxIsRunning`, `StopNginx`) in the
namespace `Webserver`, followed by theorems about the embeddings.

Modelling conventions:

* Go `string` is `String`, Go `int` is `Int` (no arithmetic is performed on
  any integer of the program, so the machine width never matters).
* A Go pointer to a struct is an `Option` (`none` is the nil pointer).
* A Go `map[string]T` is an `Option (StrMap T)`: `none` is the nil map,
  `some m` an allocated map whose entries are kept in order of first
  insertion.
* A Go slice is a `List`.  Every slice the program builds is either nil and
  empty (the client list before the first append) or non-empty, so the list
  `[]` always stands for the nil slice.
* `strings.Split` works on the characters of a string; its separators here
  (`,` and `;;;`) are ASCII, for which splitting a valid UTF-8 string by
  bytes and by characters gives the same pieces.
* `error` is the message of the error; a returned `nil` error is `none`.
* Calls that reach the outside world (`os.MkdirAll`, `uuid.NewUUID`,
  `os.OpenFile`, `File.Write`) take their outcome from an `Env` and are
  recorded, in order, in a trace of `Event`s.
-/

namespace V2ray

/-! ## Constants -/

def ConfigPath : String := "/usr/local/etc/v2ray/config.json"

def TransportTypeTcp : Int := 1
def TransportTypeWebSocket : Int := 2
def TransportTypeKcp : Int := 3
def TransportTypeHttp2 : Int := 4

def TcpTypeNone : String := "none"
def TcpTypeHttp : String := "http"

/-! ## Input: `Config` -/

/-- The anonymous `{Key, Value}` struct of the three header lists. -/
structure ConfigHeader where
  Key : String
  Value : String
  deriving DecidableEq, Repr

structure ConfigClient where
  UserId : String
  AlterId : Int
  deriving DecidableEq, Repr

structure ConfigTcpRequest where
  Version : String
  Method : String
  Path : String
  Headers : List ConfigHeader
  deriving DecidableEq, Repr

structure ConfigTcpResponse where
  Version : String
  Status : String
  Reason : String
  Headers : List ConfigHeader
  deriving DecidableEq, Repr

structure ConfigTcp where
  Type_ : String
  Request : ConfigTcpRequest
  Response : ConfigTcpResponse
  deriving DecidableEq, Repr

structure ConfigWebSocket where
  Path : String
  Headers : List ConfigHeader
  deriving DecidableEq, Repr

structure ConfigKcp where
  Type_ : String
  Mtu : Int
  Tti : Int
  UpLinkCapacity : Int
  DownLinkCapacity : Int
  Congestion : Bool
  ReadBufferSize : Int
  WriteBufferSize : Int
  deriving DecidableEq, Repr

structure ConfigHttp2 where
  Host : String
  Path : String
  deriving DecidableEq, Repr

structure Config where
  Clients : List ConfigClient
  V2rayPort : Int
  TransportType : Int
  Tcp : ConfigTcp
  WebSocket : ConfigWebSocket
  Kcp : ConfigKcp
  Http2 : ConfigHttp2
  deriving DecidableEq, Repr

/-! ## Go maps with string keys -/

/-- An allocated Go `map[string]α`, entries in order of first insertion. -/
structure StrMap (α : Type) where
  entries : List (String × α)
  deriving DecidableEq, Repr

namespace StrMap

/-- The result of `make(map[string]α)`. -/
def empty {α : Type} : StrMap α := ⟨[]⟩

/-- Assignment on an entry list: overwrite the entry of `k`, or add one. -/
def setEntries {α : Type} (k : String) (v : α) : List (String × α) → List (String × α)
  | [] => [(k, v)]
  | (k0, v0) :: rest =>
    if k0 = k then (k, v) :: rest else (k0, v0) :: setEntries k v rest

/-- The assignment `m[k] = v`. -/
def set {α : Type} (m : StrMap α) (k : String) (v : α) : StrMap α :=
  ⟨setEntries k v m.entries⟩

/-- Lookup on an entry list. -/
def getEntries {α : Type} (k : String) : List (String × α) → Option α
  | [] => none
  | (k0, v0) :: rest => if k0 = k then some v0 else getEntries k rest

/-- The lookup `m[k]` (`none` when the key is absent). -/
def get {α : Type} (m : StrMap α) (k : String) : Option α :=
  getEntries k m.entries

/-- The keys of the map. -/
def keys {α : Type} (m : StrMap α) : List String :=
  m.entries.map Prod.fst

/-- The number of entries, Go `len(m)`. -/
def len {α : Type} (m : StrMap α) : Nat :=
  m.entries.length

end StrMap

/-! ## `strings.Split` -/

/-- The scanning loop of `strings.Split` for a non-empty separator, on
character lists.  `skip` counts the characters of a separator occurrence
still to be dropped, `cur` holds the current piece reversed. -/
def splitLoop (sep : List Char) : List Char → Nat → List Char → List (List Char)
  | [], _, cur => [cur.reverse]
  | _ :: cs, skip + 1, cur => splitLoop sep cs skip cur
  | c :: cs, 0, cur =>
    if sep.isPrefixOf (c :: cs) then
      cur.reverse :: splitLoop sep cs (sep.length - 1) []
    else
      splitLoop sep cs 0 (c :: cur)

/-- Go `strings.Split(s, sep)`: the pieces of `s` between the leftmost
non-overlapping occurrences of `sep`; an empty `sep` explodes `s` into its
characters. -/
def stringsSplit (s sep : String) : List String :=
  if sep.data = [] then s.data.map (fun c => String.mk [c])
  else (splitLoop sep.data s.data 0 []).map String.mk

/-! ## Output: `vConfig` -/

structure vConfigInboundClient where
  Id : String
  AlterId : Int
  deriving DecidableEq, Repr

structure vConfigInboundTlsCertificate where
  Usage : String
  CertificateFile : String
  KeyFile : String
  Certificate : List String
  Key : List String
  deriving DecidableEq, Repr

structure vConfigInboundTls where
  ServerName : String
  AllowInsecure : Bool
  Alpn : List String
  Certificates : List vConfigInboundTlsCertificate
  DisableSystemRoot : Bool
  deriving DecidableEq, Repr

/-- The anonymous `Header struct { Type string }` of the Tcp and Kcp blocks. -/
structure vConfigHeader where
  Type_ : String
  deriving DecidableEq, Repr

structure vConfigInboundStreamTcpRequest where
  Version : String
  Method : String
  Path : List String
  Headers : Option (StrMap (List String))
  deriving DecidableEq, Repr

structure vConfigInboundStreamTcpResponse where
  Version : String
  Status : String
  Reason : String
  Headers : Option (StrMap (List String))
  deriving DecidableEq, Repr

structure vConfigInboundStreamTcp where
  Header : vConfigHeader
  Request : Option vConfigInboundStreamTcpRequest
  Response : Option vConfigInboundStreamTcpResponse
  deriving DecidableEq, Repr

structure vConfigInboundStreamWebSocket where
  Path : String
  Headers : Option (StrMap String)
  deriving DecidableEq, Repr

structure vConfigInboundStreamKcp where
  Header : vConfigHeader
  Mtu : Int
  Tti : Int
  UpLinkCapacity : Int
  DownLinkCapacity : Int
  Congestion : Bool
  ReadBufferSize : Int
  WriteBufferSize : Int
  deriving DecidableEq, Repr

structure vConfigInboundStreamHttp where
  Host : List String
  Path : String
  deriving DecidableEq, Repr

/-- The anonymous `Settings` struct of an inbound. -/
structure vConfigInboundSettings where
  Clients : List vConfigInboundClient
  deriving DecidableEq, Repr

/-- The anonymous `StreamSettings` struct of an inbound. -/
structure vConfigInboundStreamSettings where
  Network : String
  Security : String
  TlsSettings : Option vConfigInboundTls
  TcpSettings : Option vConfigInboundStreamTcp
  WsSettings : Option vConfigInboundStreamWebSocket
  KcpSettings : Option vConfigInboundStreamKcp
  HttpSettings : Option vConfigInboundStreamHttp
  deriving DecidableEq, Repr

structure vConfigInbound where
  Listen : String
  Port : Int
  Protocol : String
  Settings : vConfigInboundSettings
  StreamSettings : vConfigInboundStreamSettings
  deriving DecidableEq, Repr

structure vConfigOutbound where
  Protocol : String
  deriving DecidableEq, Repr

structure vConfig where
  Inbounds : List vConfigInbound
  Outbounds : List vConfigOutbound
  deriving DecidableEq, Repr

/-! ## The program: building the document -/

/-- The loop over `config.Clients` (lines 190-204): a client whose `UserId`
is empty receives the result of a fresh `uuid.NewUUID()` call, and every
client is appended to `inbound.Settings.Clients`.  `calls` counts the
generator calls already made, `acc` is the slice built so far. -/
def appendClients (newUUID : Nat → Except String String) :
    List ConfigClient → Nat → List vConfigInboundClient →
      Except String (List vConfigInboundClient)
  | [], _, acc => .ok acc
  | client :: rest, calls, acc =>
    if client.UserId = "" then
      match newUUID calls with
      | .error err => .error ("无法生成用户ID: " ++ err)
      | .ok id =>
        appendClients newUUID rest (calls + 1) (acc ++ [⟨id, client.AlterId⟩])
    else
      appendClients newUUID rest calls (acc ++ [⟨client.UserId, client.AlterId⟩])

/-- The loop `for _, header := range headers { m[header.Key] =
strings.Split(header.Value, ";;;") }` on an allocated map. -/
def fillListHeaders (headers : List ConfigHeader) (m : StrMap (List String)) :
    StrMap (List String) :=
  headers.foldl (fun acc header => acc.set header.Key (stringsSplit header.Value ";;;")) m

/-- The guarded construction of a Tcp headers map (lines 219-224, 231-236). -/
def tcpHeaders (headers : List ConfigHeader) : Option (StrMap (List String)) :=
  if 0 < headers.length then some (fillListHeaders headers StrMap.empty) else none

/-- The loop `for _, header := range headers { m[header.Key] = header.Value }`. -/
def fillScalarHeaders (headers : List ConfigHeader) (m : StrMap String) : StrMap String :=
  headers.foldl (fun acc header => acc.set header.Key header.Value) m

/-- The guarded construction of the WebSocket headers map (lines 242-247). -/
def wsHeaders (headers : List ConfigHeader) : Option (StrMap String) :=
  if 0 < headers.length then some (fillScalarHeaders headers StrMap.empty) else none

/-- The `case TransportTypeTcp` body: the `TcpSettings` value built. -/
def tcpSettings (config : Config) : vConfigInboundStreamTcp :=
  if TcpTypeHttp = config.Tcp.Type_ then
    { Header := ⟨config.Tcp.Type_⟩
      Request := some
        { Version := config.Tcp.Request.Version
          Method := config.Tcp.Request.Method
          Path := stringsSplit config.Tcp.Request.Path ","
          Headers := tcpHeaders config.Tcp.Request.Headers }
      Response := some
        { Version := config.Tcp.Response.Version
          Status := config.Tcp.Response.Status
          Reason := config.Tcp.Response.Reason
          Headers := tcpHeaders config.Tcp.Response.Headers } }
  else
    { Header := ⟨config.Tcp.Type_⟩, Request := none, Response := none }

/-- The `case TransportTypeWebSocket` body: the `WsSettings` value built. -/
def wsSettings (config : Config) : vConfigInboundStreamWebSocket :=
  { Path := config.WebSocket.Path, Headers := wsHeaders config.WebSocket.Headers }

/-- The `case TransportTypeKcp` body: the `KcpSettings` value built. -/
def kcpSettings (config : Config) : vConfigInboundStreamKcp :=
  { Header := ⟨config.Kcp.Type_⟩
    Mtu := config.Kcp.Mtu
    Tti := config.Kcp.Tti
    UpLinkCapacity := config.Kcp.UpLinkCapacity
    DownLinkCapacity := config.Kcp.DownLinkCapacity
    Congestion := config.Kcp.Congestion
    ReadBufferSize := config.Kcp.ReadBufferSize
    WriteBufferSize := config.Kcp.WriteBufferSize }

/-- The `case TransportTypeHttp2` body: the `HttpSettings` value built. -/
def httpSettings (config : Config) : vConfigInboundStreamHttp :=
  { Host := stringsSplit config.Http2.Host ",", Path := config.Http2.Path }

/-- Go `fmt.Sprintf("%v", n)` for an `int`: the decimal numeral, with a
leading minus sign for a negative value. -/
def fmtInt (n : Int) : String := toString n

/-- The `switch config.TransportType` (lines 208-266) applied to the stream
settings `ss` of the inbound under construction. -/
def switchTransport (config : Config) (ss : vConfigInboundStreamSettings) :
    Except String vConfigInboundStreamSettings :=
  if config.TransportType = TransportTypeTcp then
    .ok { ss with Network := "tcp", TcpSettings := some (tcpSettings config) }
  else if config.TransportType = TransportTypeWebSocket then
    .ok { ss with Network := "ws", WsSettings := some (wsSettings config) }
  else if config.TransportType = TransportTypeKcp then
    .ok { ss with Network := "kcp", KcpSettings := some (kcpSettings config) }
  else if config.TransportType = TransportTypeHttp2 then
    .ok { ss with Network := "http", HttpSettings := some (httpSettings config) }
  else
    .error ("未受支持的传输方式: " ++ fmtInt config.TransportType)

/-- The stream settings of a freshly declared inbound (all zero values)
after `inbound.StreamSettings.Security = "none"` (line 206). -/
def initialStreamSettings : vConfigInboundStreamSettings :=
  { Network := "", Security := "none", TlsSettings := none, TcpSettings := none,
    WsSettings := none, KcpSettings := none, HttpSettings := none }

/-- Lines 184-276 of `SetConfig`: the document `vc`, or the error returned
before it is complete. -/
def buildConfig (newUUID : Nat → Except String String) (config : Config) :
    Except String vConfig :=
  match appendClients newUUID config.Clients 0 [] with
  | .error err => .error err
  | .ok clients =>
    match switchTransport config initialStreamSettings with
    | .error err => .error err
    | .ok ss =>
      let inbound : vConfigInbound :=
        { Listen := "127.0.0.1"
          Port := config.V2rayPort
          Protocol := "vmess"
          Settings := ⟨clients⟩
          StreamSettings := ss }
      let outbound : vConfigOutbound := { Protocol := "freedom" }
      .ok { Inbounds := [inbound], Outbounds := [outbound] }

/-! ## Serialisation -/

/-- A JSON document as a tree. -/
inductive Json where
  | null
  | bool (b : Bool)
  | num (n : Int)
  | str (s : String)
  | arr (items : List Json)
  | obj (fields : List (String × Json))

namespace Json

/-- The field names of an object, in order. -/
def keys : Json → List String
  | obj fields => fields.map Prod.fst
  | _ => []

/-- Lookup in a field list. -/
def lookup (k : String) : List (String × Json) → Option Json
  | [] => none
  | (k0, v0) :: rest => if k0 = k then some v0 else lookup k rest

/-- The value of field `k` of an object. -/
def field (j : Json) (k : String) : Option Json :=
  match j with
  | obj fields => lookup k fields
  | _ => none

/-- A Go slice: the nil slice (modelled by `[]`) is `null`. -/
def ofSlice {α : Type} (f : α → Json) : List α → Json
  | [] => null
  | x :: xs => arr ((x :: xs).map f)

/-- A field tagged `omitempty` whose value is a pointer. -/
def omitNil {α : Type} (k : String) (f : α → Json) : Option α → List (String × Json)
  | none => []
  | some v => [(k, f v)]

/-- A field tagged `omitempty` whose value is a map: left out when the map
is nil or has no entry. -/
def omitEmptyMap {α : Type} (k : String) (f : α → Json) :
    Option (StrMap α) → List (String × Json)
  | none => []
  | some m => if m.len = 0 then [] else [(k, obj (m.entries.map (fun e => (e.1, f e.2))))]

end Json

section Marshal

open Json

/-- What `json.Marshal` writes for a header block, following the `json` tags. -/
def marshalHeader (h : vConfigHeader) : Json :=
  obj [("type", str h.Type_)]

def marshalTcpRequest (r : vConfigInboundStreamTcpRequest) : Json :=
  obj ([("version", str r.Version), ("method", str r.Method),
        ("path", ofSlice str r.Path)]
       ++ omitEmptyMap "headers" (ofSlice str) r.Headers)

def marshalTcpResponse (r : vConfigInboundStreamTcpResponse) : Json :=
  obj ([("version", str r.Version), ("status", str r.Status), ("reason", str r.Reason)]
       ++ omitEmptyMap "headers" (ofSlice str) r.Headers)

def marshalTcp (t : vConfigInboundStreamTcp) : Json :=
  obj ([("header", marshalHeader t.Header)]
       ++ omitNil "request" marshalTcpRequest t.Request
       ++ omitNil "response" marshalTcpResponse t.Response)

def marshalWebSocket (w : vConfigInboundStreamWebSocket) : Json :=
  obj ([("path", str w.Path)] ++ omitEmptyMap "headers" str w.Headers)

def marshalKcp (k : vConfigInboundStreamKcp) : Json :=
  obj [("header", marshalHeader k.Header), ("mtu", num k.Mtu), ("tti", num k.Tti),
       ("uplinkCapacity", num k.UpLinkCapacity),
       ("downlinkCapacity", num k.DownLinkCapacity),
       ("congestion", bool k.Congestion),
       ("readBufferSize", num k.ReadBufferSize),
       ("writeBufferSize", num k.WriteBufferSize)]

def marshalHttp (h : vConfigInboundStreamHttp) : Json :=
  obj [("host", ofSlice str h.Host), ("path", str h.Path)]

def marshalTlsCertificate (c : vConfigInboundTlsCertificate) : Json :=
  obj [("usage", str c.Usage), ("certificateFile", str c.CertificateFile),
       ("keyFile", str c.KeyFile), ("certificate", ofSlice str c.Certificate),
       ("key", ofSlice str c.Key)]

def marshalTls (t : vConfigInboundTls) : Json :=
  obj [("serverName", str t.ServerName), ("allowInsecure", bool t.AllowInsecure),
       ("alpn", ofSlice str t.Alpn),
       ("certificates", ofSlice marshalTlsCertificate t.Certificates),
       ("disableSystemRoot", bool t.DisableSystemRoot)]

def marshalStreamSettings (ss : vConfigInboundStreamSettings) : Json :=
  obj ([("network", str ss.Network), ("security", str ss.Security)]
       ++ omitNil "tlsSettings" marshalTls ss.TlsSettings
       ++ omitNil "tcpSettings" marshalTcp ss.TcpSettings
       ++ omitNil "wsSettings" marshalWebSocket ss.WsSettings
       ++ omitNil "kcpSettings" marshalKcp ss.KcpSettings
       ++ omitNil "httpSettings" marshalHttp ss.HttpSettings)

def marshalClient (c : vConfigInboundClient) : Json :=
  obj [("id", str c.Id), ("alterId", num c.AlterId)]

def marshalInbound (i : vConfigInbound) : Json :=
  obj [("listen", str i.Listen), ("port", num i.Port), ("protocol", str i.Protocol),
       ("settings", obj [("clients", ofSlice marshalClient i.Settings.Clients)]),
       ("streamSettings", marshalStreamSettings i.StreamSettings)]

def marshalOutbound (o : vConfigOutbound) : Json :=
  obj [("protocol", str o.Protocol), ("settings", obj [])]

/-- The call `json.Marshal(vc)`.  No value of type `vConfig` makes the
encoder fail, so the result is always `.ok`; the document is kept as a tree
(the byte encoding, and the sorting of map keys, are not modelled). -/
def jsonMarshal (vc : vConfig) : Except String Json :=
  .ok (obj [("inbounds", ofSlice marshalInbound vc.Inbounds),
            ("outbounds", ofSlice marshalOutbound vc.Outbounds)])

end Marshal

/-! ## The program: `SetConfig` -/

/-- The outcomes of the calls `SetConfig` makes to the outside world. -/
structure Env where
  /-- The error of `os.MkdirAll(filepath.Dir(configPath), 0755)`. -/
  mkdirAll : String → Option String
  /-- The result of the `k`-th call (from 0) of `uuid.NewUUID()`, as the
  `String()` of the identifier or the error. -/
  newUUID : Nat → Except String String
  /-- The error of `os.OpenFile(configPath, O_CREATE|O_WRONLY|O_TRUNC, 0644)`. -/
  openFile : String → Option String
  /-- The error of `cf.Write(content)`. -/
  write : String → Json → Option String

/-- The file-system calls of `SetConfig`, recorded when attempted. -/
inductive Event where
  /-- The directory of the path is created with `os.MkdirAll`. -/
  | mkdirAll (configPath : String)
  /-- The file is opened (created and truncated) with `os.OpenFile`. -/
  | openFile (configPath : String)
  /-- The content is written to the opened file. -/
  | write (configPath : String) (content : Json)
  /-- The deferred `cf.Close()`. -/
  | close (configPath : String)

/-- Whether an event opens the destination file or writes to it. -/
def Event.opensOrWrites : Event → Bool
  | .mkdirAll _ => false
  | .openFile _ => true
  | .write _ _ => true
  | .close _ => false

/-- `SetConfig(configPath, config)`: the returned error (`none` is nil) and
the trace of file-system calls. -/
def SetConfig (env : Env) (configPath : String) (config : Config) :
    Option String × List Event :=
  match env.mkdirAll configPath with
  | some err => (some ("配置V2ray失败: " ++ err), [.mkdirAll configPath])
  | none =>
    match buildConfig env.newUUID config with
    | .error err => (some err, [.mkdirAll configPath])
    | .ok vc =>
      match jsonMarshal vc with
      | .error err => (some ("序列化数据失败: " ++ err), [.mkdirAll configPath])
      | .ok content =>
        match env.openFile configPath with
        | some err =>
          (some ("无法打开配置文件: " ++ err),
            [.mkdirAll configPath, .openFile configPath])
        | none =>
          match env.write configPath content with
          | some err =>
            (some ("写入配置失败: " ++ err),
              [.mkdirAll configPath, .openFile configPath,
               .write configPath content, .close configPath])
          | none =>
            (none,
              [.mkdirAll configPath, .openFile configPath,
               .write configPath content, .close configPath])

/-! ## Auxiliary definitions for the statements -/

/-- Whether the selector is one of the four supported values. -/
def supportedTransport (t : Int) : Prop :=
  t = TransportTypeTcp ∨ t = TransportTypeWebSocket ∨ t = TransportTypeKcp ∨
    t = TransportTypeHttp2

instance (t : Int) : Decidable (supportedTransport t) := by
  unfold supportedTransport; infer_instance

/-- Whether the client loop of `SetConfig` runs to its end, that is, every
call of the identifier generator it makes succeeds. -/
def identifiersResolved (newUUID : Nat → Except String String) (config : Config) : Bool :=
  match appendClients newUUID config.Clients 0 [] with
  | .ok _ => true
  | .error _ => false

/-- Which of the four transport settings pointers are non-nil. -/
def populatedSettings (ss : vConfigInboundStreamSettings) : List Bool :=
  [ss.TcpSettings.isSome, ss.WsSettings.isSome, ss.KcpSettings.isSome,
   ss.HttpSettings.isSome]

/-- The field names of the four transport settings and of the TLS settings. -/
def settingsKeys : List String :=
  ["tlsSettings", "tcpSettings", "wsSettings", "kcpSettings", "httpSettings"]

/-- The relation between the clients read and the clients appended by the
loop of `SetConfig`, `calls` being the number of generator calls made before:
a client with an identifier keeps it, a client without one receives the
result of the next generator call. -/
inductive Resolved (newUUID : Nat → Except String String) :
    Nat → List ConfigClient → List vConfigInboundClient → Prop where
  | nil (calls : Nat) : Resolved newUUID calls [] []
  | supplied (calls : Nat) (client : ConfigClient) (rest : List ConfigClient)
      (out : List vConfigInboundClient) (hid : client.UserId ≠ "")
      (hrest : Resolved newUUID calls rest out) :
      Resolved newUUID calls (client :: rest) (⟨client.UserId, client.AlterId⟩ :: out)
  | fresh (calls : Nat) (client : ConfigClient) (rest : List ConfigClient)
      (out : List vConfigInboundClient) (id : String) (hid : client.UserId = "")
      (hgen : newUUID calls = .ok id)
      (hrest : Resolved newUUID (calls + 1) rest out) :
      Resolved newUUID calls (client :: rest) (⟨id, client.AlterId⟩ :: out)

/-- The content of a headers map `m` built from the header list `hs`, the
value stored for a header being `f header`: the keys of `m` are the keys
occurring in `hs`, each once, and a key is mapped to the value computed from
the last header of `hs` carrying it. -/
def LastWriteWins {α : Type} (f : ConfigHeader → α) (hs : List ConfigHeader)
    (m : StrMap α) : Prop :=
  (∀ k, k ∈ m.keys ↔ k ∈ hs.map (fun h => h.Key)) ∧
  m.keys.Nodup ∧
  ∀ pre h post, hs = pre ++ h :: post → (∀ x ∈ post, x.Key ≠ h.Key) →
    m.get h.Key = some (f h)

/-- A headers field is nil exactly when the header list it is built from is
empty, and is never an allocated map without entry. -/
def AbsentIffEmpty {α : Type} (hs : List ConfigHeader) (headers : Option (StrMap α)) : Prop :=
  (headers = none ↔ hs = []) ∧ ∀ m, headers = some m → m.len ≠ 0

/-! ## Sample inputs -/

/-- An identifier generator that never fails and never repeats itself: the
`k`-th call returns the letter `u` written `k + 1` times. -/
def unaryUUID : Nat → Except String String :=
  fun k => .ok (String.mk (List.replicate (k + 1) 'u'))

/-- The input of the end-to-end example: one client without identifier,
port 10086, the WebSocket selector with path `/ray` and no header. -/
def sampleConfig : Config :=
  { Clients := [⟨"", 0⟩]
    V2rayPort := 10086
    TransportType := TransportTypeWebSocket
    Tcp := ⟨"none", ⟨"", "", "", []⟩, ⟨"", "", "", []⟩⟩
    WebSocket := ⟨"/ray", []⟩
    Kcp := ⟨"none", 0, 0, 0, 0, false, 0, 0⟩
    Http2 := ⟨"", ""⟩ }

/-- An environment in which every call to the outside world succeeds. -/
def okEnv : Env :=
  { mkdirAll := fun _ => none
    newUUID := unaryUUID
    openFile := fun _ => none
    write := fun _ _ => none }

/-- An input with the Tcp selector whose two clients carry the same
pre-supplied identifier. -/
def duplicateConfig : Config :=
  { sampleConfig with
    Clients := [⟨"a", 0⟩, ⟨"a", 1⟩], TransportType := TransportTypeTcp }

/-- An input whose second client carries the identifier the generator
`unaryUUID` returns at its first call. -/
def collidingConfig : Config :=
  { sampleConfig with
    Clients := [⟨"", 0⟩, ⟨"u", 1⟩], TransportType := TransportTypeTcp }

/-- An input with the Tcp selector and header type `http`: three clients,
the middle one with an identifier, and a request header list with a
repeated key. -/
def mixedConfig : Config :=
  { Clients := [⟨"", 0⟩, ⟨"b", 4⟩, ⟨"", 7⟩]
    V2rayPort := 10086
    TransportType := TransportTypeTcp
    Tcp := ⟨"http",
            ⟨"1.1", "GET", "/,/a", [⟨"A", "v1;;;v2"⟩, ⟨"B", "z"⟩, ⟨"A", "q"⟩]⟩,
            ⟨"1.1", "200", "OK", []⟩⟩
    WebSocket := ⟨"/ray", [⟨"Host", "a"⟩, ⟨"Host", "b"⟩]⟩
    Kcp := ⟨"srtp", 1350, 20, 5, 20, true, 1, 2⟩
    Http2 := ⟨"a.com,b.com", "/h"⟩ }

/-- The header-splitting example: the Tcp selector, header type `http`, and
the single request header `A` with value `v1;;;v2`. -/
def headerExampleConfig : Config :=
  { mixedConfig with
    Tcp := ⟨"http", ⟨"1.1", "GET", "/", [⟨"A", "v1;;;v2"⟩]⟩, ⟨"1.1", "200", "OK", []⟩⟩ }

/-! ## `strings.Join` -/

/-- The concatenation loop of `strings.Join` on character lists: nothing for
no element, the element itself for one, and otherwise the elements with the
separator between each two. -/
def joinLoop (sep : List Char) : List (List Char) → List Char
  | [] => []
  | [p] => p
  | p :: q :: rest => p ++ sep ++ joinLoop sep (q :: rest)

/-- Go `strings.Join(parts, sep)`. -/
def stringsJoin (parts : List String) (sep : String) : String :=
  String.mk (joinLoop sep.data (parts.map String.data))

end V2ray

/-!
# The Nginx supervisor

A shallow embedding of `common/webserver/nginx.go`.  The two commands the
package runs take their outcome, the pair `(res, err)` returned by
`exec.Command(...).Output()`, from a `Shell`; the captured output is kept as
a string, whose length is zero exactly when no byte was captured.
-/

namespace Webserver

/-- Go `unicode.IsSpace`: the white space characters of Unicode. -/
def isSpace (c : Char) : Bool :=
  (9 ≤ c.toNat && c.toNat ≤ 13) || c.toNat == 32 || c.toNat == 0x85 || c.toNat == 0xA0 ||
    c.toNat == 0x1680 || (0x2000 ≤ c.toNat && c.toNat ≤ 0x200A) || c.toNat == 0x2028 ||
    c.toNat == 0x2029 || c.toNat == 0x202F || c.toNat == 0x205F || c.toNat == 0x3000

/-- Go `strings.TrimSpace(s)`: `s` without its leading and trailing white
space. -/
def stringsTrimSpace (s : String) : String :=
  String.mk ((s.data.dropWhile isSpace).reverse.dropWhile isSpace).reverse

/-- The result `(res, err)` of `exec.Command(...).Output()`. -/
structure CommandResult where
  res : String
  err : Option String
  deriving DecidableEq, Repr

/-- The commands the package runs. -/
inductive Command where
  /-- The process-listing pipeline: `ps -ef` filtered by `grep` for the path
  of the nginx binary, without the `grep` itself, cut by `awk` to the
  process ids. -/
  | psQuery
  /-- The command `nginx -s stop`. -/
  | nginxStop
  deriving DecidableEq, Repr

/-- The outcomes of the commands run during one call. -/
structure Shell where
  /-- The outcome of the process-listing pipeline. -/
  query : CommandResult
  /-- The outcome of `nginx -s stop`. -/
  stop : CommandResult
  deriving DecidableEq, Repr

/-- `CheckNginxIsRunning()`: the pair `(running, err)` returned. -/
def CheckNginxIsRunning (sh : Shell) : Bool × Option String :=
  match sh.query.err, decide (0 ≠ sh.query.res.length) with
  | some err, true => (false, some ("检查Nginx状态失败: " ++ err))
  | _, _ => (decide ("" ≠ stringsTrimSpace sh.query.res), none)

/-- `StopNginx()`: the error returned (`none` is nil) and the commands run,
in order. -/
def StopNginx (sh : Shell) : Option String × List Command :=
  match sh.stop.err, decide (0 ≠ sh.stop.res.length) with
  | some err, true => (some ("停止Nginx失败: " ++ err), [.nginxStop])
  | _, _ =>
    match CheckNginxIsRunning sh with
    | (_, some err) => (some err, [.nginxStop, .psQuery])
    | (running, none) =>
      if running then (some "停止Nginx失败", [.nginxStop, .psQuery])
      else (none, [.nginxStop, .psQuery])

/-- Whether `StopNginx` takes its first `return`, the one of the error of
the stop command (the test of line 23). -/
def stopErrorSurfaced (sh : Shell) : Bool :=
  match sh.stop.err, decide (0 ≠ sh.stop.res.length) with
  | some _, true => true
  | _, _ => false

/-- A shell on which the stop command fails without output and the listing
finds no process: the service was not running. -/
def stoppedShell : Shell :=
  { query := ⟨"", none⟩, stop := ⟨"", some "exit status 1"⟩ }

/-- A shell on which the stop command succeeds and the listing still finds
the process 1234. -/
def runningShell : Shell :=
  { query := ⟨"1234\n", none⟩, stop := ⟨"", none⟩ }

/-- A shell on which the listing fails without output. -/
def silentFailureShell : Shell :=
  { query := ⟨"", some "exit status 1"⟩, stop := ⟨"", none⟩ }

/-- A shell on which the listing prints white space only. -/
def blankShell : Shell :=
  { query := ⟨" \n\t", none⟩, stop := ⟨"", none⟩ }

/-- A shell on which both commands fail with some output. -/
def failingShell : Shell :=
  { query := ⟨"1234\n", some "exit status 2"⟩, stop := ⟨"signal sent\n", some "exit status 1"⟩ }

end Webserver

namespace V2ray

/-! ## The client loop with the memory of the caller -/

/-- The variables the client loop of `SetConfig` reads and assigns: the
struct behind the pointer `config`, the loop variable `client`, the slice
`inbound.Settings.Clients` and the number of generator calls made. -/
structure LoopMemory where
  config : Config
  client : ConfigClient
  clients : List vConfigInboundClient
  calls : Nat

/-- One iteration of `for _, client := range config.Clients`, at index `i`:
`range` copies the element into the variable `client`, and the assignment
`client.UserId = id.String()` writes to that variable.  The result is the
memory after the iteration and the error returned from inside it, if any. -/
def clientLoopStep (newUUID : Nat → Except String String) (i : Nat) (mem : LoopMemory) :
    LoopMemory × Option String :=
  match mem.config.Clients[i]? with
  | none => (mem, none)
  | some element =>
    let mem1 : LoopMemory := { mem with client := element }
    if mem1.client.UserId = "" then
      match newUUID mem1.calls with
      | .error err =>
        ({ mem1 with calls := mem1.calls + 1 }, some ("无法生成用户ID: " ++ err))
      | .ok id =>
        let mem2 : LoopMemory :=
          { mem1 with client := { mem1.client with UserId := id }, calls := mem1.calls + 1 }
        ({ mem2 with
            clients := mem2.clients ++ [⟨mem2.client.UserId, mem2.client.AlterId⟩] }, none)
    else
      ({ mem1 with
          clients := mem1.clients ++ [⟨mem1.client.UserId, mem1.client.AlterId⟩] }, none)

/-- The `n` iterations of the loop from index `i` on. -/
def clientLoop (newUUID : Nat → Except String String) :
    Nat → Nat → LoopMemory → LoopMemory × Option String
  | 0, _, mem => (mem, none)
  | n + 1, i, mem =>
    match clientLoopStep newUUID i mem with
    | (mem1, some err) => (mem1, some err)
    | (mem1, none) => clientLoop newUUID n (i + 1) mem1

/-- The memory at the start of the loop: no client appended, no generator
call made, the loop variable not yet assigned. -/
def initialLoopMemory (config : Config) : LoopMemory :=
  { config := config, client := ⟨"", 0⟩, clients := [], calls := 0 }

/-- The struct behind the pointer `config` once `SetConfig(configPath,
config)` has returned.  The client loop holds the only assignment of the
function whose target is not a variable declared in its body for the
document, `client.UserId = id.String()`; every other statement reads
`config`. -/
def configAfterSetConfig (env : Env) (configPath : String) (config : Config) : Config :=
  match env.mkdirAll configPath with
  | some _ => config
  | none => (clientLoop env.newUUID config.Clients.length 0 (initialLoopMemory config)).1.config

/-! ## Lemmas on maps -/

namespace StrMap

theorem getEntries_setEntries {α : Type} (k k1 : String) (v : α) (l : List (String × α)) :
    getEntries k1 (setEntries k v l) = if k = k1 then some v else getEntries k1 l := by
  induction l with
  | nil => simp [setEntries, getEntries]
  | cons e rest ih =>
    obtain ⟨k0, v0⟩ := e
    by_cases h0 : k0 = k
    · subst h0
      by_cases h1 : k0 = k1 <;> simp [setEntries, getEntries, h1]
    · by_cases h1 : k0 = k1
      · subst h1
        have h2 : ¬ k = k0 := fun h => h0 h.symm
        simp [setEntries, getEntries, h0, h2]
      · simp [setEntries, getEntries, h0, h1, ih]

theorem get_set {α : Type} (m : StrMap α) (k k1 : String) (v : α) :
    (m.set k v).get k1 = if k = k1 then some v else m.get k1 :=
  getEntries_setEntries k k1 v m.entries

theorem mem_keys_setEntries {α : Type} (k k1 : String) (v : α) (l : List (String × α)) :
    k1 ∈ (setEntries k v l).map Prod.fst ↔ k1 = k ∨ k1 ∈ l.map Prod.fst := by
  induction l with
  | nil => simp [setEntries]
  | cons e rest ih =>
    obtain ⟨k0, v0⟩ := e
    by_cases h0 : k0 = k
    · subst h0
      simp [setEntries]
    · simp only [setEntries, h0, if_false, List.map_cons, List.mem_cons, ih]
      tauto

theorem mem_keys_set {α : Type} (m : StrMap α) (k k1 : String) (v : α) :
    k1 ∈ (m.set k v).keys ↔ k1 = k ∨ k1 ∈ m.keys :=
  mem_keys_setEntries k k1 v m.entries

theorem getEntries_isSome {α : Type} (k : String) (l : List (String × α)) :
    (getEntries k l).isSome = true ↔ k ∈ l.map Prod.fst := by
  induction l with
  | nil => simp [getEntries]
  | cons e rest ih =>
    obtain ⟨k0, v0⟩ := e
    by_cases h0 : k0 = k
    · subst h0
      simp [getEntries]
    · have h1 : ¬ k = k0 := fun h => h0 h.symm
      simp [getEntries, h0, h1, ih]

/-- A key is in the map exactly when its lookup finds a value. -/
theorem get_isSome {α : Type} (m : StrMap α) (k : String) :
    (m.get k).isSome = true ↔ k ∈ m.keys :=
  getEntries_isSome k m.entries

theorem len_ne_zero_of_mem_keys {α : Type} (m : StrMap α) (k : String)
    (h : k ∈ m.keys) : m.len ≠ 0 := by
  unfold keys at h
  unfold len
  cases hm : m.entries with
  | nil => simp [hm] at h
  | cons e rest => simp

end StrMap

/-- The map after the loop `for _, header := range hs { m[header.Key] = f header }`. -/
theorem get_foldl_set_of_not_mem {α : Type} (f : ConfigHeader → α)
    (hs : List ConfigHeader) (m : StrMap α) (k : String)
    (hk : ∀ h ∈ hs, h.Key ≠ k) :
    (hs.foldl (fun acc h => acc.set h.Key (f h)) m).get k = m.get k := by
  induction hs generalizing m with
  | nil => rfl
  | cons h rest ih =>
    have h1 : h.Key ≠ k := hk h (List.mem_cons_self _ _)
    have h2 : ∀ x ∈ rest, x.Key ≠ k := fun x hx => hk x (List.mem_cons_of_mem _ hx)
    rw [List.foldl_cons, ih _ h2, StrMap.get_set, if_neg h1]

/-- Last write wins: the value of a key after the loop is the one computed
from the last header carrying that key. -/
theorem get_foldl_set_last {α : Type} (f : ConfigHeader → α)
    (pre post : List ConfigHeader) (h : ConfigHeader) (m : StrMap α)
    (hpost : ∀ x ∈ post, x.Key ≠ h.Key) :
    ((pre ++ h :: post).foldl (fun acc x => acc.set x.Key (f x)) m).get h.Key
      = some (f h) := by
  rw [List.foldl_append, List.foldl_cons, get_foldl_set_of_not_mem f post _ _ hpost,
    StrMap.get_set, if_pos rfl]

theorem mem_keys_foldl_set {α : Type} (f : ConfigHeader → α)
    (hs : List ConfigHeader) (m : StrMap α) (k : String) :
    k ∈ (hs.foldl (fun acc h => acc.set h.Key (f h)) m).keys
      ↔ k ∈ hs.map (fun h => h.Key) ∨ k ∈ m.keys := by
  induction hs generalizing m with
  | nil => simp
  | cons h rest ih =>
    rw [List.foldl_cons, ih, StrMap.mem_keys_set]
    simp only [List.map_cons, List.mem_cons]
    tauto

theorem len_foldl_set_ne_zero {α : Type} (f : ConfigHeader → α)
    (hs : List ConfigHeader) (m : StrMap α) (hne : hs ≠ []) :
    (hs.foldl (fun acc h => acc.set h.Key (f h)) m).len ≠ 0 := by
  cases hs with
  | nil => exact absurd rfl hne
  | cons h rest =>
    apply StrMap.len_ne_zero_of_mem_keys _ h.Key
    rw [mem_keys_foldl_set]
    left
    simp

/-! ## Lemmas on the document builder -/

theorem buildConfig_of_ok (newUUID : Nat → Except String String) (config : Config)
    (clients : List vConfigInboundClient) (ss : vConfigInboundStreamSettings)
    (hc : appendClients newUUID config.Clients 0 [] = .ok clients)
    (hs : switchTransport config initialStreamSettings = .ok ss) :
    buildConfig newUUID config = .ok
      { Inbounds := [{ Listen := "127.0.0.1", Port := config.V2rayPort,
                       Protocol := "vmess", Settings := ⟨clients⟩,
                       StreamSettings := ss }],
        Outbounds := [{ Protocol := "freedom" }] } := by
  simp [buildConfig, hc, hs]

theorem buildConfig_ok_inv (newUUID : Nat → Except String String) (config : Config)
    (vc : vConfig) (h : buildConfig newUUID config = .ok vc) :
    ∃ clients ss,
      appendClients newUUID config.Clients 0 [] = .ok clients ∧
      switchTransport config initialStreamSettings = .ok ss ∧
      vc = { Inbounds := [{ Listen := "127.0.0.1", Port := config.V2rayPort,
                            Protocol := "vmess", Settings := ⟨clients⟩,
                            StreamSettings := ss }],
             Outbounds := [{ Protocol := "freedom" }] } := by
  unfold buildConfig at h
  cases hc : appendClients newUUID config.Clients 0 [] with
  | error e => simp [hc] at h
  | ok clients =>
    cases hs : switchTransport config initialStreamSettings with
    | error e => simp [hc, hs] at h
    | ok ss =>
      simp [hc, hs] at h
      exact ⟨clients, ss, rfl, rfl, h.symm⟩

theorem identifiersResolved_iff (newUUID : Nat → Except String String) (config : Config) :
    identifiersResolved newUUID config = true ↔
      ∃ clients, appendClients newUUID config.Clients 0 [] = .ok clients := by
  unfold identifiersResolved
  cases appendClients newUUID config.Clients 0 [] <;> simp

theorem switchTransport_tcp (config : Config)
    (h : config.TransportType = TransportTypeTcp) :
    switchTransport config initialStreamSettings = .ok
      { initialStreamSettings with
        Network := "tcp", TcpSettings := some (tcpSettings config) } := by
  simp [switchTransport, h]

theorem switchTransport_ws (config : Config)
    (h : config.TransportType = TransportTypeWebSocket) :
    switchTransport config initialStreamSettings = .ok
      { initialStreamSettings with
        Network := "ws", WsSettings := some (wsSettings config) } := by
  simp [switchTransport, h, TransportTypeTcp, TransportTypeWebSocket]

theorem switchTransport_kcp (config : Config)
    (h : config.TransportType = TransportTypeKcp) :
    switchTransport config initialStreamSettings = .ok
      { initialStreamSettings with
        Network := "kcp", KcpSettings := some (kcpSettings config) } := by
  simp [switchTransport, h, TransportTypeTcp, TransportTypeWebSocket, TransportTypeKcp]

theorem switchTransport_http2 (config : Config)
    (h : config.TransportType = TransportTypeHttp2) :
    switchTransport config initialStreamSettings = .ok
      { initialStreamSettings with
        Network := "http", HttpSettings := some (httpSettings config) } := by
  simp [switchTransport, h, TransportTypeTcp, TransportTypeWebSocket, TransportTypeKcp,
    TransportTypeHttp2]

theorem switchTransport_unsupported (config : Config)
    (h : ¬ supportedTransport config.TransportType) :
    switchTransport config initialStreamSettings =
      .error ("未受支持的传输方式: " ++ fmtInt config.TransportType) := by
  unfold supportedTransport at h
  simp only [not_or] at h
  obtain ⟨h1, h2, h3, h4⟩ := h
  simp [switchTransport, h1, h2, h3, h4]

theorem SetConfig_success (env : Env) (configPath : String) (config : Config)
    (h : (SetConfig env configPath config).1 = none) :
    ∃ vc content, buildConfig env.newUUID config = .ok vc ∧
      jsonMarshal vc = .ok content ∧
      (SetConfig env configPath config).2 =
        [.mkdirAll configPath, .openFile configPath, .write configPath content,
         .close configPath] := by
  unfold SetConfig at h ⊢
  cases hd : env.mkdirAll configPath with
  | some e => simp [hd] at h
  | none =>
    cases hb : buildConfig env.newUUID config with
    | error e => simp [hd, hb] at h
    | ok vc =>
      cases ho : env.openFile configPath with
      | some e => simp [hd, hb, ho, jsonMarshal] at h
      | none =>
        cases hw : env.write configPath
            (Json.obj [("inbounds", Json.ofSlice marshalInbound vc.Inbounds),
              ("outbounds", Json.ofSlice marshalOutbound vc.Outbounds)]) with
        | some e => simp [hd, hb, ho, hw, jsonMarshal] at h
        | none => exact ⟨vc, _, rfl, rfl, by simp [hd, ho, hw, jsonMarshal]⟩

/-! ## Lemmas on the client loop -/

theorem appendClients_resolved (newUUID : Nat → Except String String)
    (cs : List ConfigClient) (calls : Nat) (acc out : List vConfigInboundClient)
    (h : appendClients newUUID cs calls acc = .ok out) :
    ∃ tail, out = acc ++ tail ∧ Resolved newUUID calls cs tail := by
  induction cs generalizing calls acc with
  | nil =>
    simp only [appendClients, Except.ok.injEq] at h
    exact ⟨[], by simp [h], Resolved.nil calls⟩
  | cons client rest ih =>
    unfold appendClients at h
    by_cases hid : client.UserId = ""
    · rw [if_pos hid] at h
      cases hg : newUUID calls with
      | error e => simp [hg] at h
      | ok id =>
        simp only [hg] at h
        obtain ⟨tail, ht, hr⟩ := ih _ _ h
        exact ⟨_ :: tail, by simp [ht], Resolved.fresh calls client rest tail id hid hg hr⟩
    · rw [if_neg hid] at h
      obtain ⟨tail, ht, hr⟩ := ih _ _ h
      exact ⟨_ :: tail, by simp [ht], Resolved.supplied calls client rest tail hid hr⟩

theorem appendClients_total (newUUID : Nat → Except String String)
    (hgen : ∀ k, ∃ id, newUUID k = .ok id)
    (cs : List ConfigClient) (calls : Nat) (acc : List vConfigInboundClient) :
    ∃ out, appendClients newUUID cs calls acc = .ok out := by
  induction cs generalizing calls acc with
  | nil => exact ⟨acc, rfl⟩
  | cons client rest ih =>
    unfold appendClients
    by_cases hid : client.UserId = ""
    · obtain ⟨id, hg⟩ := hgen calls
      rw [if_pos hid]
      simp only [hg]
      exact ih _ _
    · rw [if_neg hid]
      exact ih _ _

theorem identifiersResolved_of_total (newUUID : Nat → Except String String)
    (hgen : ∀ k, ∃ id, newUUID k = .ok id) (config : Config) :
    identifiersResolved newUUID config = true :=
  (identifiersResolved_iff newUUID config).2
    (appendClients_total newUUID hgen config.Clients 0 [])

theorem Resolved.length_eq {newUUID : Nat → Except String String} {calls : Nat}
    {cs : List ConfigClient} {out : List vConfigInboundClient}
    (h : Resolved newUUID calls cs out) : out.length = cs.length := by
  induction h with
  | nil => rfl
  | supplied _ _ _ _ _ _ ih => simp [ih]
  | fresh _ _ _ _ _ _ _ _ ih => simp [ih]

theorem Resolved.pointwise {newUUID : Nat → Except String String} {calls : Nat}
    {cs : List ConfigClient} {out : List vConfigInboundClient}
    (h : Resolved newUUID calls cs out) (i : Nat) (c : ConfigClient)
    (hc : cs[i]? = some c) :
    ∃ o, out[i]? = some o ∧ o.AlterId = c.AlterId ∧
      (c.UserId ≠ "" → o.Id = c.UserId) ∧
      (c.UserId = "" → ∃ k, newUUID k = .ok o.Id) := by
  induction h generalizing i with
  | nil => simp at hc
  | supplied calls client rest out hid _ ih =>
    cases i with
    | zero =>
      simp only [List.getElem?_cons_zero, Option.some.injEq] at hc
      subst hc
      exact ⟨⟨client.UserId, client.AlterId⟩, by simp, rfl, fun _ => rfl, fun h0 => absurd h0 hid⟩
    | succ n =>
      simp only [List.getElem?_cons_succ] at hc ⊢
      exact ih n hc
  | fresh calls client rest out id hid hgen _ ih =>
    cases i with
    | zero =>
      simp only [List.getElem?_cons_zero, Option.some.injEq] at hc
      subst hc
      exact ⟨⟨id, client.AlterId⟩, by simp, rfl, fun h0 => absurd hid h0, fun _ => ⟨calls, hgen⟩⟩
    | succ n =>
      simp only [List.getElem?_cons_succ] at hc ⊢
      exact ih n hc

theorem Resolved.ids_nonempty {newUUID : Nat → Except String String} {calls : Nat}
    {cs : List ConfigClient} {out : List vConfigInboundClient}
    (h : Resolved newUUID calls cs out)
    (hne : ∀ k id, newUUID k = .ok id → id ≠ "") :
    ∀ o ∈ out, o.Id ≠ "" := by
  induction h with
  | nil => simp
  | supplied calls client rest out hid _ ih =>
    intro o ho
    rcases List.mem_cons.1 ho with h0 | h0
    · subst h0; exact hid
    · exact ih o h0
  | fresh calls client rest out id hid hgen _ ih =>
    intro o ho
    rcases List.mem_cons.1 ho with h0 | h0
    · subst h0; exact hne calls id hgen
    · exact ih o h0

/-- Where the identifiers of the appended clients come from. -/
theorem Resolved.id_origin {newUUID : Nat → Except String String} {calls : Nat}
    {cs : List ConfigClient} {out : List vConfigInboundClient}
    (h : Resolved newUUID calls cs out) :
    ∀ o ∈ out, (o.Id ≠ "" ∧ o.Id ∈ cs.map (fun c => c.UserId)) ∨
      ∃ k, calls ≤ k ∧ newUUID k = .ok o.Id := by
  induction h with
  | nil => simp
  | supplied calls client rest out hid _ ih =>
    intro o ho
    rcases List.mem_cons.1 ho with h0 | h0
    · subst h0; exact Or.inl ⟨hid, by simp⟩
    · rcases ih o h0 with ⟨h1, h2⟩ | h1
      · exact Or.inl ⟨h1, by simp [h2]⟩
      · exact Or.inr h1
  | fresh calls client rest out id hid hgen _ ih =>
    intro o ho
    rcases List.mem_cons.1 ho with h0 | h0
    · subst h0; exact Or.inr ⟨calls, le_refl _, hgen⟩
    · rcases ih o h0 with ⟨h1, h2⟩ | ⟨k, hk, h1⟩
      · exact Or.inl ⟨h1, by simp [h2]⟩
      · exact Or.inr ⟨k, by omega, h1⟩

theorem Resolved.ids_nodup {newUUID : Nat → Except String String} {calls : Nat}
    {cs : List ConfigClient} {out : List vConfigInboundClient}
    (h : Resolved newUUID calls cs out)
    (hinj : ∀ i j id, newUUID i = .ok id → newUUID j = .ok id → i = j)
    (hdist : ((cs.map (fun c => c.UserId)).filter (fun s => decide (s ≠ ""))).Nodup)
    (hsep : ∀ k id, newUUID k = .ok id → id ∉ cs.map (fun c => c.UserId)) :
    (out.map (fun o => o.Id)).Nodup := by
  induction h with
  | nil => simp
  | supplied calls client rest out hid hrest ih =>
    have hd : client.UserId ∉ (rest.map (fun c => c.UserId)).filter
          (fun s => decide (s ≠ "")) ∧
        ((rest.map (fun c => c.UserId)).filter (fun s => decide (s ≠ ""))).Nodup := by
      simpa [List.filter_cons, hid] using hdist
    have hsep1 : ∀ k id, newUUID k = .ok id → id ∉ rest.map (fun c => c.UserId) := by
      intro k id hk hmem
      exact hsep k id hk (by simp only [List.map_cons]; exact List.mem_cons_of_mem _ hmem)
    rw [List.map_cons, List.nodup_cons]
    refine ⟨?_, ih hd.2 hsep1⟩
    intro hmem
    obtain ⟨o, ho, hoid⟩ := List.mem_map.1 hmem
    rcases hrest.id_origin o ho with ⟨h1, h2⟩ | ⟨k, _, h1⟩
    · apply hd.1
      rw [List.mem_filter]
      simp only [] at hoid
      rw [← hoid]
      exact ⟨h2, by simpa using h1⟩
    · apply hsep k o.Id h1
      simp only [] at hoid
      rw [hoid]
      simp
  | fresh calls client rest out id hid hgen hrest ih =>
    have hd : ((rest.map (fun c => c.UserId)).filter (fun s => decide (s ≠ ""))).Nodup := by
      simpa [List.filter_cons, hid] using hdist
    have hsep1 : ∀ k id, newUUID k = .ok id → id ∉ rest.map (fun c => c.UserId) := by
      intro k id hk hmem
      exact hsep k id hk (by simp only [List.map_cons]; exact List.mem_cons_of_mem _ hmem)
    rw [List.map_cons, List.nodup_cons]
    refine ⟨?_, ih hd hsep1⟩
    intro hmem
    obtain ⟨o, ho, hoid⟩ := List.mem_map.1 hmem
    simp only [] at hoid
    rcases hrest.id_origin o ho with ⟨_, h2⟩ | ⟨k, hk, h1⟩
    · apply hsep1 calls id hgen
      rw [← hoid]
      exact h2
    · rw [hoid] at h1
      have := hinj k calls id h1 hgen
      omega

/-- The identifier at a position whose input `UserId` is empty is the result
of a generator call made during the loop. -/
theorem Resolved.fresh_origin {newUUID : Nat → Except String String} {calls : Nat}
    {cs : List ConfigClient} {out : List vConfigInboundClient}
    (h : Resolved newUUID calls cs out) (i : Nat) (c : ConfigClient)
    (o : vConfigInboundClient) (hc : cs[i]? = some c) (hempty : c.UserId = "")
    (ho : out[i]? = some o) :
    ∃ k, calls ≤ k ∧ newUUID k = .ok o.Id := by
  induction h generalizing i with
  | nil => simp at hc
  | supplied calls client rest out hid _ ih =>
    cases i with
    | zero =>
      simp only [List.getElem?_cons_zero, Option.some.injEq] at hc
      subst hc
      exact absurd hempty hid
    | succ n =>
      simp only [List.getElem?_cons_succ] at hc ho
      exact ih n hc ho
  | fresh calls client rest out id hid hgen _ ih =>
    cases i with
    | zero =>
      simp only [List.getElem?_cons_zero, Option.some.injEq] at ho
      subst ho
      exact ⟨calls, le_refl _, hgen⟩
    | succ n =>
      simp only [List.getElem?_cons_succ] at hc ho
      obtain ⟨k, hk, h1⟩ := ih n hc ho
      exact ⟨k, by omega, h1⟩

/-- Two positions whose input `UserId` is empty receive different
identifiers when the generator never repeats itself. -/
theorem Resolved.fresh_distinct {newUUID : Nat → Except String String} {calls : Nat}
    {cs : List ConfigClient} {out : List vConfigInboundClient}
    (h : Resolved newUUID calls cs out)
    (hinj : ∀ i j id, newUUID i = .ok id → newUUID j = .ok id → i = j)
    (i j : Nat) (ci cj : ConfigClient) (oi oj : vConfigInboundClient)
    (hij : i < j) (hci : cs[i]? = some ci) (hcj : cs[j]? = some cj)
    (hei : ci.UserId = "") (hej : cj.UserId = "")
    (hoi : out[i]? = some oi) (hoj : out[j]? = some oj) :
    oi.Id ≠ oj.Id := by
  induction h generalizing i j with
  | nil => simp at hci
  | supplied calls client rest out hid _ ih =>
    cases i with
    | zero =>
      simp only [List.getElem?_cons_zero, Option.some.injEq] at hci
      subst hci
      exact absurd hei hid
    | succ n =>
      cases j with
      | zero => omega
      | succ m =>
        simp only [List.getElem?_cons_succ] at hci hcj hoi hoj
        exact ih n m (by omega) hci hcj hoi hoj
  | fresh calls client rest out id hid hgen hrest ih =>
    cases j with
    | zero => omega
    | succ m =>
      simp only [List.getElem?_cons_succ] at hcj hoj
      cases i with
      | zero =>
        simp only [List.getElem?_cons_zero, Option.some.injEq] at hoi
        subst hoi
        obtain ⟨k, hk, h1⟩ := hrest.fresh_origin m cj oj hcj hej hoj
        intro heq
        simp only [] at heq
        rw [← heq] at h1
        have := hinj k calls id h1 hgen
        omega
      | succ n =>
        simp only [List.getElem?_cons_succ] at hci hoi
        exact ih n m (by omega) hci hcj hoi hoj

theorem unaryUUID_injective (i j : Nat) (h : unaryUUID i = unaryUUID j) : i = j := by
  unfold unaryUUID at h
  have h1 : List.replicate (i + 1) 'u' = List.replicate (j + 1) 'u' := by
    injection h with h2
    injection h2
  have h2 := congrArg List.length h1
  simpa using h2

theorem unaryUUID_nonempty (k : Nat) : ∃ id, unaryUUID k = .ok id ∧ id ≠ "" := by
  refine ⟨_, rfl, ?_⟩
  intro h
  have h1 := congrArg String.length h
  simp [List.replicate_succ] at h1

/-! ## Lemmas on the headers maps -/

theorem StrMap.keys_setEntries {α : Type} (k : String) (v : α) (l : List (String × α)) :
    (StrMap.setEntries k v l).map Prod.fst =
      if k ∈ l.map Prod.fst then l.map Prod.fst else l.map Prod.fst ++ [k] := by
  induction l with
  | nil => simp [StrMap.setEntries]
  | cons e rest ih =>
    obtain ⟨k0, v0⟩ := e
    by_cases h0 : k0 = k
    · subst h0
      simp [StrMap.setEntries]
    · have h1 : ¬ k = k0 := fun h => h0 h.symm
      simp only [StrMap.setEntries, h0, if_false, List.map_cons, List.mem_cons, h1, false_or, ih]
      by_cases h2 : k ∈ rest.map Prod.fst
      · simp only [List.mem_map] at h2
        simp [h2]
      · simp only [List.mem_map] at h2
        simp [h2]

theorem StrMap.nodup_keys_set {α : Type} (m : StrMap α) (k : String) (v : α)
    (h : m.keys.Nodup) : (m.set k v).keys.Nodup := by
  unfold StrMap.keys StrMap.set at *
  rw [StrMap.keys_setEntries]
  by_cases h2 : k ∈ m.entries.map Prod.fst
  · rw [if_pos h2]; exact h
  · rw [if_neg h2]
    rw [List.nodup_append]
    refine ⟨h, List.nodup_singleton k, ?_⟩
    intro a ha hb
    rw [List.mem_singleton] at hb
    subst hb
    exact h2 ha

theorem nodup_keys_foldl_set {α : Type} (f : ConfigHeader → α)
    (hs : List ConfigHeader) (m : StrMap α) (h : m.keys.Nodup) :
    (hs.foldl (fun acc x => acc.set x.Key (f x)) m).keys.Nodup := by
  induction hs generalizing m with
  | nil => exact h
  | cons x rest ih =>
    rw [List.foldl_cons]
    exact ih _ (StrMap.nodup_keys_set m _ _ h)

theorem lastWriteWins_foldl_set {α : Type} (f : ConfigHeader → α)
    (hs : List ConfigHeader) :
    LastWriteWins f hs (hs.foldl (fun acc x => acc.set x.Key (f x)) StrMap.empty) := by
  refine ⟨?_, ?_, ?_⟩
  · intro k
    rw [mem_keys_foldl_set]
    simp [StrMap.empty, StrMap.keys]
  · exact nodup_keys_foldl_set f hs _ (by simp [StrMap.empty, StrMap.keys])
  · intro pre h post hhs hpost
    rw [hhs]
    exact get_foldl_set_last f pre post h _ hpost

theorem tcpHeaders_of_ne_nil (hs : List ConfigHeader) (hne : hs ≠ []) :
    ∃ m, tcpHeaders hs = some m ∧
      LastWriteWins (fun h => stringsSplit h.Value ";;;") hs m := by
  have hl : 0 < hs.length := List.length_pos.2 hne
  exact ⟨_, by simp [tcpHeaders, hl, fillListHeaders], lastWriteWins_foldl_set _ hs⟩

theorem wsHeaders_of_ne_nil (hs : List ConfigHeader) (hne : hs ≠ []) :
    ∃ m, wsHeaders hs = some m ∧ LastWriteWins (fun h => h.Value) hs m := by
  have hl : 0 < hs.length := List.length_pos.2 hne
  exact ⟨_, by simp [wsHeaders, hl, fillScalarHeaders], lastWriteWins_foldl_set _ hs⟩

theorem tcpHeaders_absentIffEmpty (hs : List ConfigHeader) :
    AbsentIffEmpty hs (tcpHeaders hs) := by
  cases hs with
  | nil => simp [AbsentIffEmpty, tcpHeaders]
  | cons h rest =>
    refine ⟨by simp [tcpHeaders], ?_⟩
    intro m hm
    simp only [tcpHeaders, List.length_cons, Nat.zero_lt_succ, if_true, Option.some.injEq] at hm
    rw [← hm]
    exact len_foldl_set_ne_zero _ _ _ (by simp)

theorem wsHeaders_absentIffEmpty (hs : List ConfigHeader) :
    AbsentIffEmpty hs (wsHeaders hs) := by
  cases hs with
  | nil => simp [AbsentIffEmpty, wsHeaders]
  | cons h rest =>
    refine ⟨by simp [wsHeaders], ?_⟩
    intro m hm
    simp only [wsHeaders, List.length_cons, Nat.zero_lt_succ, if_true, Option.some.injEq] at hm
    rw [← hm]
    exact len_foldl_set_ne_zero _ _ _ (by simp)

/-- The serialised field of a headers map is left out exactly when the
header list is empty. -/
theorem omitEmptyMap_eq_nil_iff {α : Type} (hs : List ConfigHeader)
    (headers : Option (StrMap α)) (f : α → Json) (h : AbsentIffEmpty hs headers) :
    Json.omitEmptyMap "headers" f headers = [] ↔ hs = [] := by
  cases headers with
  | none => simpa [Json.omitEmptyMap] using h.1
  | some m =>
    have h1 : m.len ≠ 0 := h.2 m rfl
    have h2 : hs ≠ [] := fun h0 => by simpa using h.1.2 h0
    simp [Json.omitEmptyMap, h1, h2]

/-! ## Lemmas on `strings.Split` -/

theorem splitLoop_ne_nil (sep s : List Char) (skip : Nat) (cur : List Char) :
    splitLoop sep s skip cur ≠ [] := by
  induction s generalizing skip cur with
  | nil => simp [splitLoop]
  | cons c cs ih =>
    cases skip with
    | succ k => simp only [splitLoop]; exact ih k cur
    | zero =>
      simp only [splitLoop]
      split
      · simp
      · exact ih 0 (c :: cur)

/-- Dropping the rest of a separator occurrence character by character is
dropping it at once. -/
theorem splitLoop_skip (sep s : List Char) (skip : Nat) (cur : List Char) :
    splitLoop sep s skip cur = splitLoop sep (s.drop skip) 0 cur := by
  induction s generalizing skip with
  | nil => cases skip <;> simp [splitLoop]
  | cons c cs ih =>
    cases skip with
    | zero => simp
    | succ k => simp only [splitLoop, List.drop_succ_cons]; exact ih k

theorem joinLoop_cons (sep p : List Char) (rest : List (List Char)) (h : rest ≠ []) :
    joinLoop sep (p :: rest) = p ++ sep ++ joinLoop sep rest := by
  cases rest with
  | nil => exact absurd rfl h
  | cons q qs => rfl

theorem joinLoop_splitLoop_aux (sep : List Char) (hsep : sep ≠ []) (n : Nat) :
    ∀ (s cur : List Char), s.length ≤ n →
      joinLoop sep (splitLoop sep s 0 cur) = cur.reverse ++ s := by
  induction n with
  | zero =>
    intro s cur hs
    have : s = [] := List.length_eq_zero.1 (Nat.le_zero.1 hs)
    subst this
    simp [splitLoop, joinLoop]
  | succ n ih =>
    intro s cur hs
    cases s with
    | nil => simp [splitLoop, joinLoop]
    | cons c cs =>
      have hcs : cs.length ≤ n := by simpa using hs
      simp only [splitLoop]
      split
      · rename_i hpre
        rw [splitLoop_skip, joinLoop_cons _ _ _ (splitLoop_ne_nil _ _ _ _)]
        have hlen : (cs.drop (sep.length - 1)).length ≤ n := by
          rw [List.length_drop]; omega
        rw [ih _ _ hlen]
        obtain ⟨t, ht⟩ := List.isPrefixOf_iff_prefix.1 hpre
        have hpos : 0 < sep.length := List.length_pos.2 hsep
        have hdrop : cs.drop (sep.length - 1) = t := by
          have h1 : (c :: cs).drop sep.length = t := by
            rw [← ht]; simp
          have h2 : sep.length = (sep.length - 1) + 1 := by omega
          rw [h2, List.drop_succ_cons] at h1
          exact h1
        rw [hdrop, ← ht]
        simp
      · rw [ih _ _ hcs]
        simp

/-- Joining the pieces of a split with the separator gives the string back. -/
theorem joinLoop_splitLoop (sep s : List Char) (hsep : sep ≠ []) :
    joinLoop sep (splitLoop sep s 0 []) = s := by
  simpa using joinLoop_splitLoop_aux sep hsep s.length s [] (le_refl _)

theorem stringsJoin_stringsSplit (s sep : String) (hsep : sep ≠ "") :
    stringsJoin (stringsSplit s sep) sep = s := by
  have hd : sep.data ≠ [] := by
    intro h
    apply hsep
    cases sep
    simp_all
  unfold stringsJoin stringsSplit
  rw [if_neg hd, List.map_map]
  have : (String.data ∘ String.mk) = id := by
    funext l; rfl
  rw [this, List.map_id, joinLoop_splitLoop _ _ hd]

theorem stringsSplit_ne_nil (s sep : String) (hsep : sep ≠ "") :
    stringsSplit s sep ≠ [] := by
  have hd : sep.data ≠ [] := by
    intro h
    apply hsep
    cases sep
    simp_all
  unfold stringsSplit
  rw [if_neg hd]
  simpa using splitLoop_ne_nil sep.data s.data 0 []

theorem stringsSplit_empty (sep : String) (hsep : sep ≠ "") :
    stringsSplit "" sep = [""] := by
  have hd : sep.data ≠ [] := by
    intro h
    apply hsep
    cases sep
    simp_all
  unfold stringsSplit
  rw [if_neg hd]
  rfl

theorem splitLoop_single_length (d : Char) (s cur : List Char) :
    (splitLoop [d] s 0 cur).length = s.count d + 1 := by
  induction s generalizing cur with
  | nil => simp [splitLoop]
  | cons c cs ih =>
    simp only [splitLoop]
    by_cases hc : d = c
    · subst hc
      simp [List.isPrefixOf, ih]
    · have hc2 : ¬ c = d := fun h => hc h.symm
      simp [List.isPrefixOf, hc, ih, List.count_cons, hc2]

theorem splitLoop_single_not_mem (d : Char) (s cur : List Char) (hcur : d ∉ cur) :
    ∀ p ∈ splitLoop [d] s 0 cur, d ∉ p := by
  induction s generalizing cur with
  | nil =>
    intro p hp
    simp only [splitLoop, List.mem_singleton] at hp
    subst hp
    simpa using hcur
  | cons c cs ih =>
    intro p hp
    simp only [splitLoop] at hp
    by_cases hc : d = c
    · subst hc
      simp only [List.isPrefixOf, beq_self_eq_true, Bool.and_self, if_true,
        List.length_singleton, Nat.sub_self, List.mem_cons] at hp
      rcases hp with hp | hp
      · subst hp; simpa using hcur
      · exact ih [] (by simp) p hp
    · simp only [List.isPrefixOf, beq_iff_eq, hc, Bool.and_true, decide_False, Bool.false_and,
        if_false] at hp
      apply ih (c :: cur) _ p hp
      simp only [List.mem_cons, not_or]
      exact ⟨hc, hcur⟩

theorem switchTransport_security (config : Config) (ss : vConfigInboundStreamSettings)
    (h : switchTransport config initialStreamSettings = .ok ss) :
    ss.Security = "none" := by
  unfold switchTransport at h
  split at h
  · injection h with h; rw [← h]; rfl
  · split at h
    · injection h with h; rw [← h]; rfl
    · split at h
      · injection h with h; rw [← h]; rfl
      · split at h
        · injection h with h; rw [← h]; rfl
        · simp at h

/-! ## Lemmas on the client loop with memory -/

theorem clientLoopStep_of_get (newUUID : Nat → Except String String) (i : Nat)
    (mem : LoopMemory) (c : ConfigClient) (hc : mem.config.Clients[i]? = some c) :
    (clientLoopStep newUUID i mem).1.config = mem.config ∧
    (c.UserId ≠ "" →
      (clientLoopStep newUUID i mem).2 = none ∧
      (clientLoopStep newUUID i mem).1.calls = mem.calls ∧
      (clientLoopStep newUUID i mem).1.clients = mem.clients ++ [⟨c.UserId, c.AlterId⟩]) ∧
    (c.UserId = "" → ∀ id, newUUID mem.calls = .ok id →
      (clientLoopStep newUUID i mem).2 = none ∧
      (clientLoopStep newUUID i mem).1.calls = mem.calls + 1 ∧
      (clientLoopStep newUUID i mem).1.clients = mem.clients ++ [⟨id, c.AlterId⟩]) ∧
    (c.UserId = "" → ∀ err, newUUID mem.calls = .error err →
      (clientLoopStep newUUID i mem).2 = some ("无法生成用户ID: " ++ err)) := by
  unfold clientLoopStep
  rw [hc]
  by_cases hid : c.UserId = ""
  · simp only [hid, if_true]
    cases hg : newUUID mem.calls with
    | error err => simp
    | ok id => simp
  · simp [hid]

/-- The loop with memory computes what `appendClients` computes and leaves
the struct behind `config` as it was. -/
theorem clientLoop_spec (newUUID : Nat → Except String String) (n : Nat) :
    ∀ (i : Nat) (mem : LoopMemory) (rest : List ConfigClient),
      mem.config.Clients.drop i = rest → rest.length = n →
      (clientLoop newUUID n i mem).1.config = mem.config ∧
      ((clientLoop newUUID n i mem).2 = none →
        appendClients newUUID rest mem.calls mem.clients =
          .ok (clientLoop newUUID n i mem).1.clients) ∧
      (∀ e, (clientLoop newUUID n i mem).2 = some e →
        appendClients newUUID rest mem.calls mem.clients = .error e) := by
  induction n with
  | zero =>
    intro i mem rest _ hn
    have : rest = [] := List.length_eq_zero.1 hn
    subst this
    simp [clientLoop, appendClients]
  | succ n ih =>
    intro i mem rest hrest hn
    cases rest with
    | nil => simp at hn
    | cons c rest1 =>
      have hget : mem.config.Clients[i]? = some c := by
        have h1 : (mem.config.Clients.drop i)[0]? = some c := by rw [hrest]; simp
        rw [List.getElem?_drop] at h1
        simpa using h1
      have hdrop : mem.config.Clients.drop (i + 1) = rest1 := by
        rw [← List.tail_drop, hrest]; rfl
      have hlen : rest1.length = n := by simpa using hn
      obtain ⟨hcfg, hsup, hfresh, hfail⟩ := clientLoopStep_of_get newUUID i mem c hget
      unfold clientLoop
      unfold appendClients
      by_cases hid : c.UserId = ""
      · rw [if_pos hid]
        cases hg : newUUID mem.calls with
        | error err =>
          have h2 := hfail hid err hg
          rcases hstep : clientLoopStep newUUID i mem with ⟨mem1, r⟩
          rw [hstep] at h2 hcfg
          simp only at h2 hcfg
          subst h2
          simp [hcfg]
        | ok id =>
          obtain ⟨h2, h3, h4⟩ := hfresh hid id hg
          rcases hstep : clientLoopStep newUUID i mem with ⟨mem1, r⟩
          rw [hstep] at h2 h3 h4 hcfg
          simp only at h2 h3 h4 hcfg
          subst h2
          have hih := ih (i + 1) mem1 rest1 (by rw [hcfg]; exact hdrop) hlen
          rw [h3, h4, hcfg] at hih
          simpa using hih
      · rw [if_neg hid]
        obtain ⟨h2, h3, h4⟩ := hsup hid
        rcases hstep : clientLoopStep newUUID i mem with ⟨mem1, r⟩
        rw [hstep] at h2 h3 h4 hcfg
        simp only at h2 h3 h4 hcfg
        subst h2
        have hih := ih (i + 1) mem1 rest1 (by rw [hcfg]; exact hdrop) hlen
        rw [h3, h4, hcfg] at hih
        simpa using hih

/-! ## Lemmas for the round trip and the order of the steps -/

theorem exists_last_with_key (hs : List ConfigHeader) (k : String)
    (hk : k ∈ hs.map (fun h => h.Key)) :
    ∃ pre h post, hs = pre ++ h :: post ∧ h.Key = k ∧ ∀ x ∈ post, x.Key ≠ k := by
  induction hs with
  | nil => simp at hk
  | cons x rest ih =>
    by_cases hr : k ∈ rest.map (fun h => h.Key)
    · obtain ⟨pre, h, post, h1, h2, h3⟩ := ih hr
      exact ⟨x :: pre, h, post, by rw [h1]; rfl, h2, h3⟩
    · have hx : x.Key = k := by
        simp only [List.map_cons, List.mem_cons] at hk
        rcases hk with hk | hk
        · exact hk.symm
        · exact absurd hk hr
      refine ⟨[], x, rest, rfl, hx, ?_⟩
      intro y hy hyk
      apply hr
      rw [← hyk]
      exact List.mem_map.2 ⟨y, hy, rfl⟩

/-- Every list stored in a Tcp headers map has at least one element and,
joined with `;;;`, is the value of the last header carrying its key. -/
theorem tcpHeaders_roundtrip (hs : List ConfigHeader) (m : StrMap (List String))
    (hm : tcpHeaders hs = some m) (k : String) (parts : List String)
    (hget : m.get k = some parts) :
    parts ≠ [] ∧
    ∃ pre h post, hs = pre ++ h :: post ∧ h.Key = k ∧ (∀ x ∈ post, x.Key ≠ k) ∧
      stringsJoin parts ";;;" = h.Value := by
  have hne : hs ≠ [] := by
    intro h0
    rw [h0] at hm
    simp [tcpHeaders] at hm
  obtain ⟨m1, hm1, hkeys, _, hlast⟩ := tcpHeaders_of_ne_nil hs hne
  rw [hm] at hm1
  injection hm1 with hm1
  subst hm1
  have hk : k ∈ m.keys := (StrMap.get_isSome m k).1 (by rw [hget]; rfl)
  obtain ⟨pre, h, post, h1, h2, h3⟩ := exists_last_with_key hs k ((hkeys k).1 hk)
  have h4 := hlast pre h post h1 (by rw [h2]; exact h3)
  rw [h2, hget] at h4
  injection h4 with h4
  rw [h4]
  exact ⟨stringsSplit_ne_nil _ _ (by decide),
    pre, h, post, h1, h2, h3, stringsJoin_stringsSplit _ _ (by decide)⟩

theorem appendClients_error_form (newUUID : Nat → Except String String)
    (cs : List ConfigClient) (calls : Nat) (acc : List vConfigInboundClient) (e : String)
    (h : appendClients newUUID cs calls acc = .error e) :
    ∃ k err, newUUID k = .error err ∧ e = "无法生成用户ID: " ++ err := by
  induction cs generalizing calls acc with
  | nil => simp [appendClients] at h
  | cons client rest ih =>
    unfold appendClients at h
    by_cases hid : client.UserId = ""
    · rw [if_pos hid] at h
      cases hg : newUUID calls with
      | error err =>
        simp only [hg, Except.error.injEq] at h
        exact ⟨calls, err, hg, h.symm⟩
      | ok id =>
        simp only [hg] at h
        exact ih _ _ h
    · rw [if_neg hid] at h
      exact ih _ _ h

/-! ## The claims -/

/-- C1: for every input whose selector is one of the four supported values
(and whose client loop completes), the document built has exactly one of
`TcpSettings`, `WsSettings`, `KcpSettings`, `HttpSettings` non-nil, and
`TlsSettings` nil; the serialised stream-settings object therefore has,
besides `network` and `security`, exactly one settings field. -/
theorem C1_exactly_one_settings_populated (newUUID : Nat → Except String String)
    (config : Config)
    (hsel : supportedTransport config.TransportType)
    (hgen : identifiersResolved newUUID config = true) :
    ∃ vc inbound,
      buildConfig newUUID config = .ok vc ∧ vc.Inbounds = [inbound] ∧
      (populatedSettings inbound.StreamSettings).count true = 1 ∧
      inbound.StreamSettings.TlsSettings = none ∧
      ∃ k ∈ ["tcpSettings", "wsSettings", "kcpSettings", "httpSettings"],
        (marshalStreamSettings inbound.StreamSettings).keys = ["network", "security", k] := by
  obtain ⟨clients, hc⟩ := (identifiersResolved_iff newUUID config).1 hgen
  rcases hsel with h | h | h | h
  · refine ⟨_, _, buildConfig_of_ok _ _ _ _ hc (switchTransport_tcp config h), rfl, ?_⟩
    simp [populatedSettings, initialStreamSettings, marshalStreamSettings, Json.omitNil,
      Json.keys]
  · refine ⟨_, _, buildConfig_of_ok _ _ _ _ hc (switchTransport_ws config h), rfl, ?_⟩
    simp [populatedSettings, initialStreamSettings, marshalStreamSettings, Json.omitNil,
      Json.keys]
  · refine ⟨_, _, buildConfig_of_ok _ _ _ _ hc (switchTransport_kcp config h), rfl, ?_⟩
    simp [populatedSettings, initialStreamSettings, marshalStreamSettings, Json.omitNil,
      Json.keys]
  · refine ⟨_, _, buildConfig_of_ok _ _ _ _ hc (switchTransport_http2 config h), rfl, ?_⟩
    simp [populatedSettings, initialStreamSettings, marshalStreamSettings, Json.omitNil,
      Json.keys]

/-- C1 at the WebSocket sample input. -/
theorem C1_exactly_one_settings_populated_witness :
    supportedTransport sampleConfig.TransportType ∧
    identifiersResolved unaryUUID sampleConfig = true ∧
    ∃ vc inbound,
      buildConfig unaryUUID sampleConfig = .ok vc ∧ vc.Inbounds = [inbound] ∧
      (populatedSettings inbound.StreamSettings).count true = 1 ∧
      inbound.StreamSettings.TlsSettings = none ∧
      ∃ k ∈ ["tcpSettings", "wsSettings", "kcpSettings", "httpSettings"],
        (marshalStreamSettings inbound.StreamSettings).keys = ["network", "security", k] :=
  ⟨by decide, by decide,
    C1_exactly_one_settings_populated unaryUUID sampleConfig (by decide) (by decide)⟩

/-- C2: for every input whose selector is not one of the four supported
values, when directory creation and the client loop succeed, `SetConfig`
returns the unsupported-transport error whose message ends with the decimal
numeral of the selector, and its only file-system call is the directory
creation: the destination file is neither opened nor written. -/
theorem C2_unsupported_transport_error (env : Env) (configPath : String) (config : Config)
    (hsel : ¬ supportedTransport config.TransportType)
    (hdir : env.mkdirAll configPath = none)
    (hgen : identifiersResolved env.newUUID config = true) :
    SetConfig env configPath config =
      (some ("未受支持的传输方式: " ++ fmtInt config.TransportType),
        [Event.mkdirAll configPath]) ∧
    ∀ e ∈ (SetConfig env configPath config).2, e.opensOrWrites = false := by
  obtain ⟨clients, hc⟩ := (identifiersResolved_iff env.newUUID config).1 hgen
  have hb : buildConfig env.newUUID config =
      .error ("未受支持的传输方式: " ++ fmtInt config.TransportType) := by
    simp [buildConfig, hc, switchTransport_unsupported config hsel]
  have hS : SetConfig env configPath config =
      (some ("未受支持的传输方式: " ++ fmtInt config.TransportType),
        [Event.mkdirAll configPath]) := by
    simp [SetConfig, hdir, hb]
  refine ⟨hS, ?_⟩
  rw [hS]
  intro e he
  simp at he
  subst he
  rfl

/-- C2 at the selector values 0 and 99 of the sample input: the messages end
in `0` and in `99`. -/
theorem C2_unsupported_transport_error_witness :
    (SetConfig okEnv ConfigPath { sampleConfig with TransportType := 0 } =
      (some "未受支持的传输方式: 0", [Event.mkdirAll ConfigPath])) ∧
    (SetConfig okEnv ConfigPath { sampleConfig with TransportType := 99 } =
      (some "未受支持的传输方式: 99", [Event.mkdirAll ConfigPath])) :=
  ⟨(C2_unsupported_transport_error okEnv ConfigPath
      { sampleConfig with TransportType := 0 } (by decide) rfl (by decide)).1,
   (C2_unsupported_transport_error okEnv ConfigPath
      { sampleConfig with TransportType := 99 } (by decide) rfl (by decide)).1⟩

/-- C3, the claim as stated fails: with a generator that never fails, never
returns the empty string and never repeats itself, the transformation of an
input whose two clients carry the same identifier succeeds and its output
has two clients with that identifier; likewise an input identifier equal to
a generated one is repeated in the output. -/
theorem C3_counterexample :
    (∀ k, ∃ id, unaryUUID k = .ok id ∧ id ≠ "") ∧
    (∀ i j, unaryUUID i = unaryUUID j → i = j) ∧
    (SetConfig okEnv ConfigPath duplicateConfig).1 = none ∧
    (∃ vc inbound, buildConfig unaryUUID duplicateConfig = .ok vc ∧
      vc.Inbounds = [inbound] ∧
      inbound.Settings.Clients.map (fun c => c.Id) = ["a", "a"] ∧
      ¬ (inbound.Settings.Clients.map (fun c => c.Id)).Nodup) ∧
    (∃ vc inbound, buildConfig unaryUUID collidingConfig = .ok vc ∧
      vc.Inbounds = [inbound] ∧
      inbound.Settings.Clients.map (fun c => c.Id) = ["u", "u"] ∧
      ¬ (inbound.Settings.Clients.map (fun c => c.Id)).Nodup) :=
  ⟨unaryUUID_nonempty, unaryUUID_injective, rfl,
    ⟨_, _, rfl, rfl, rfl, by decide⟩, ⟨_, _, rfl, rfl, rfl, by decide⟩⟩

/-- C3, amended: with a supported selector and a generator that never fails,
never returns the empty string and never repeats itself, the document is
built and every client of it has a non-empty identifier; two clients whose
input identifiers were empty never share an identifier; and no two clients
at all share an identifier provided the non-empty identifiers of the input
are pairwise distinct and none of them is a value the generator returns. -/
theorem C3_identifiers_nonempty_and_distinct (newUUID : Nat → Except String String)
    (config : Config)
    (hsel : supportedTransport config.TransportType)
    (hne : ∀ k, ∃ id, newUUID k = .ok id ∧ id ≠ "")
    (hinj : ∀ i j, newUUID i = newUUID j → i = j) :
    ∃ vc inbound,
      buildConfig newUUID config = .ok vc ∧ vc.Inbounds = [inbound] ∧
      (∀ c ∈ inbound.Settings.Clients, c.Id ≠ "") ∧
      (∀ (i j : Nat) (ci cj : ConfigClient) (oi oj : vConfigInboundClient), i < j →
        config.Clients[i]? = some ci → config.Clients[j]? = some cj →
        ci.UserId = "" → cj.UserId = "" →
        inbound.Settings.Clients[i]? = some oi → inbound.Settings.Clients[j]? = some oj →
        oi.Id ≠ oj.Id) ∧
      (((config.Clients.map (fun c => c.UserId)).filter (fun s => decide (s ≠ ""))).Nodup →
        (∀ k id, newUUID k = .ok id → id ∉ config.Clients.map (fun c => c.UserId)) →
        (inbound.Settings.Clients.map (fun c => c.Id)).Nodup) := by
  have htot : ∀ k, ∃ id, newUUID k = .ok id := fun k =>
    (hne k).elim fun id h => ⟨id, h.1⟩
  obtain ⟨clients, hc⟩ := appendClients_total newUUID htot config.Clients 0 []
  obtain ⟨tail, ht, hr⟩ := appendClients_resolved _ _ _ _ _ hc
  simp only [List.nil_append] at ht
  subst ht
  have hne1 : ∀ k id, newUUID k = .ok id → id ≠ "" := by
    intro k id hk
    obtain ⟨id1, h1, h2⟩ := hne k
    rw [hk] at h1
    injection h1 with h3
    rw [h3]
    exact h2
  have hinj1 : ∀ i j id, newUUID i = .ok id → newUUID j = .ok id → i = j :=
    fun i j id hi hj => hinj i j (hi.trans hj.symm)
  have hprop : (∀ c ∈ clients, c.Id ≠ "") ∧
      (∀ (i j : Nat) (ci cj : ConfigClient) (oi oj : vConfigInboundClient), i < j →
        config.Clients[i]? = some ci → config.Clients[j]? = some cj →
        ci.UserId = "" → cj.UserId = "" →
        clients[i]? = some oi → clients[j]? = some oj →
        oi.Id ≠ oj.Id) ∧
      (((config.Clients.map (fun c => c.UserId)).filter (fun s => decide (s ≠ ""))).Nodup →
        (∀ k id, newUUID k = .ok id → id ∉ config.Clients.map (fun c => c.UserId)) →
        (clients.map (fun c => c.Id)).Nodup) :=
    ⟨hr.ids_nonempty hne1,
      fun i j ci cj oi oj hij hci hcj hei hej hoi hoj =>
        hr.fresh_distinct hinj1 i j ci cj oi oj hij hci hcj hei hej hoi hoj,
      fun hd hs => hr.ids_nodup hinj1 hd hs⟩
  rcases hsel with h | h | h | h
  · exact ⟨_, _, buildConfig_of_ok _ _ _ _ hc (switchTransport_tcp config h), rfl, hprop⟩
  · exact ⟨_, _, buildConfig_of_ok _ _ _ _ hc (switchTransport_ws config h), rfl, hprop⟩
  · exact ⟨_, _, buildConfig_of_ok _ _ _ _ hc (switchTransport_kcp config h), rfl, hprop⟩
  · exact ⟨_, _, buildConfig_of_ok _ _ _ _ hc (switchTransport_http2 config h), rfl, hprop⟩

/-- C3 (amended) at the three-client input with the generator `unaryUUID`. -/
theorem C3_identifiers_nonempty_and_distinct_witness :
    ∃ vc inbound,
      buildConfig unaryUUID mixedConfig = .ok vc ∧ vc.Inbounds = [inbound] ∧
      (∀ c ∈ inbound.Settings.Clients, c.Id ≠ "") ∧
      (∀ (i j : Nat) (ci cj : ConfigClient) (oi oj : vConfigInboundClient), i < j →
        mixedConfig.Clients[i]? = some ci → mixedConfig.Clients[j]? = some cj →
        ci.UserId = "" → cj.UserId = "" →
        inbound.Settings.Clients[i]? = some oi → inbound.Settings.Clients[j]? = some oj →
        oi.Id ≠ oj.Id) ∧
      (((mixedConfig.Clients.map (fun c => c.UserId)).filter
          (fun s => decide (s ≠ ""))).Nodup →
        (∀ k id, unaryUUID k = .ok id → id ∉ mixedConfig.Clients.map (fun c => c.UserId)) →
        (inbound.Settings.Clients.map (fun c => c.Id)).Nodup) :=
  C3_identifiers_nonempty_and_distinct unaryUUID mixedConfig (by decide)
    unaryUUID_nonempty unaryUUID_injective

/-- C4: the output client list has the length and the order of the input
client list; the client at each position keeps the `AlterId` of the input
client at that position, keeps its `UserId` when that is non-empty, and
carries a result of the generator only when the input `UserId` is empty. -/
theorem C4_clients_preserved (newUUID : Nat → Except String String) (config : Config)
    (hsel : supportedTransport config.TransportType)
    (hgen : identifiersResolved newUUID config = true) :
    ∃ vc inbound,
      buildConfig newUUID config = .ok vc ∧ vc.Inbounds = [inbound] ∧
      inbound.Settings.Clients.length = config.Clients.length ∧
      ∀ (i : Nat) (c : ConfigClient), config.Clients[i]? = some c →
        ∃ o, inbound.Settings.Clients[i]? = some o ∧ o.AlterId = c.AlterId ∧
          (c.UserId ≠ "" → o.Id = c.UserId) ∧
          (c.UserId = "" → ∃ k, newUUID k = .ok o.Id) := by
  obtain ⟨clients, hc⟩ := (identifiersResolved_iff newUUID config).1 hgen
  obtain ⟨tail, ht, hr⟩ := appendClients_resolved _ _ _ _ _ hc
  simp only [List.nil_append] at ht
  subst ht
  have hprop : clients.length = config.Clients.length ∧
      ∀ (i : Nat) (c : ConfigClient), config.Clients[i]? = some c →
        ∃ o, clients[i]? = some o ∧ o.AlterId = c.AlterId ∧
          (c.UserId ≠ "" → o.Id = c.UserId) ∧
          (c.UserId = "" → ∃ k, newUUID k = .ok o.Id) :=
    ⟨hr.length_eq, fun i c hi => hr.pointwise i c hi⟩
  rcases hsel with h | h | h | h
  · exact ⟨_, _, buildConfig_of_ok _ _ _ _ hc (switchTransport_tcp config h), rfl, hprop⟩
  · exact ⟨_, _, buildConfig_of_ok _ _ _ _ hc (switchTransport_ws config h), rfl, hprop⟩
  · exact ⟨_, _, buildConfig_of_ok _ _ _ _ hc (switchTransport_kcp config h), rfl, hprop⟩
  · exact ⟨_, _, buildConfig_of_ok _ _ _ _ hc (switchTransport_http2 config h), rfl, hprop⟩

/-- C4 at the three-client input: the clients built are `u`, `b`, `uu` with
the multipliers 0, 4, 7. -/
theorem C4_clients_preserved_witness :
    (supportedTransport mixedConfig.TransportType ∧
      identifiersResolved unaryUUID mixedConfig = true) ∧
    (∃ vc inbound,
      buildConfig unaryUUID mixedConfig = .ok vc ∧ vc.Inbounds = [inbound] ∧
      inbound.Settings.Clients.length = mixedConfig.Clients.length ∧
      ∀ (i : Nat) (c : ConfigClient), mixedConfig.Clients[i]? = some c →
        ∃ o, inbound.Settings.Clients[i]? = some o ∧ o.AlterId = c.AlterId ∧
          (c.UserId ≠ "" → o.Id = c.UserId) ∧
          (c.UserId = "" → ∃ k, unaryUUID k = .ok o.Id)) ∧
    appendClients unaryUUID mixedConfig.Clients 0 [] =
      .ok [⟨"u", 0⟩, ⟨"b", 4⟩, ⟨"uu", 7⟩] :=
  ⟨⟨by decide, by decide⟩,
    C4_clients_preserved unaryUUID mixedConfig (by decide) (by decide), rfl⟩

/-- C5: with the Tcp selector, the output `TcpSettings` has its header type
equal to the input header type, and its `Request` and its `Response` are
non-nil if and only if the input header type is `http`; with header type
`none` both are nil, whatever the input request and response hold. -/
theorem C5_tcp_request_response_iff_http (newUUID : Nat → Except String String)
    (config : Config)
    (hsel : config.TransportType = TransportTypeTcp)
    (hgen : identifiersResolved newUUID config = true) :
    ∃ vc inbound tcp,
      buildConfig newUUID config = .ok vc ∧ vc.Inbounds = [inbound] ∧
      inbound.StreamSettings.TcpSettings = some tcp ∧
      tcp.Header.Type_ = config.Tcp.Type_ ∧
      (tcp.Request.isSome = true ↔ config.Tcp.Type_ = TcpTypeHttp) ∧
      (tcp.Response.isSome = true ↔ config.Tcp.Type_ = TcpTypeHttp) ∧
      (config.Tcp.Type_ = TcpTypeNone → tcp.Request = none ∧ tcp.Response = none) := by
  obtain ⟨clients, hc⟩ := (identifiersResolved_iff newUUID config).1 hgen
  refine ⟨_, _, tcpSettings config,
    buildConfig_of_ok _ _ _ _ hc (switchTransport_tcp config hsel), rfl, rfl, ?_⟩
  unfold tcpSettings
  by_cases hh : TcpTypeHttp = config.Tcp.Type_
  · rw [if_pos hh]
    refine ⟨rfl, by simp [hh.symm], by simp [hh.symm], ?_⟩
    intro hn
    rw [hn] at hh
    exact absurd hh (by decide)
  · rw [if_neg hh]
    have hh1 : ¬ config.Tcp.Type_ = TcpTypeHttp := fun h => hh h.symm
    exact ⟨rfl, by simp [hh1], by simp [hh1], fun _ => ⟨rfl, rfl⟩⟩

/-- C5 at an input with header type `none` whose request and response
fields are filled: neither sub-object is built. -/
theorem C5_tcp_request_response_iff_http_witness :
    ∃ vc inbound tcp,
      buildConfig unaryUUID { mixedConfig with Tcp := { mixedConfig.Tcp with Type_ := "none" } }
        = .ok vc ∧ vc.Inbounds = [inbound] ∧
      inbound.StreamSettings.TcpSettings = some tcp ∧
      tcp.Header.Type_ = "none" ∧
      (tcp.Request.isSome = true ↔ "none" = TcpTypeHttp) ∧
      (tcp.Response.isSome = true ↔ "none" = TcpTypeHttp) ∧
      ("none" = TcpTypeNone → tcp.Request = none ∧ tcp.Response = none) :=
  C5_tcp_request_response_iff_http unaryUUID
    { mixedConfig with Tcp := { mixedConfig.Tcp with Type_ := "none" } } rfl (by decide)

/-- C6: with the Tcp selector and header type `http`, the output request
path is the input path split on `,`; when the input request (resp. response)
header list is not empty, the output request (resp. response) headers map
has exactly the keys of the list, and maps each key to the value of the last
entry with that key split on `;;;`. -/
theorem C6_tcp_http_headers_split (newUUID : Nat → Except String String)
    (config : Config)
    (hsel : config.TransportType = TransportTypeTcp)
    (hhttp : config.Tcp.Type_ = TcpTypeHttp)
    (hgen : identifiersResolved newUUID config = true) :
    ∃ vc inbound tcp req resp,
      buildConfig newUUID config = .ok vc ∧ vc.Inbounds = [inbound] ∧
      inbound.StreamSettings.TcpSettings = some tcp ∧
      tcp.Request = some req ∧ tcp.Response = some resp ∧
      req.Path = stringsSplit config.Tcp.Request.Path "," ∧
      (config.Tcp.Request.Headers ≠ [] →
        ∃ m, req.Headers = some m ∧
          LastWriteWins (fun h => stringsSplit h.Value ";;;") config.Tcp.Request.Headers m) ∧
      (config.Tcp.Response.Headers ≠ [] →
        ∃ m, resp.Headers = some m ∧
          LastWriteWins (fun h => stringsSplit h.Value ";;;") config.Tcp.Response.Headers m) := by
  obtain ⟨clients, hc⟩ := (identifiersResolved_iff newUUID config).1 hgen
  have ht : tcpSettings config =
      { Header := ⟨config.Tcp.Type_⟩
        Request := some
          { Version := config.Tcp.Request.Version
            Method := config.Tcp.Request.Method
            Path := stringsSplit config.Tcp.Request.Path ","
            Headers := tcpHeaders config.Tcp.Request.Headers }
        Response := some
          { Version := config.Tcp.Response.Version
            Status := config.Tcp.Response.Status
            Reason := config.Tcp.Response.Reason
            Headers := tcpHeaders config.Tcp.Response.Headers } } := by
    unfold tcpSettings
    rw [if_pos hhttp.symm]
  refine ⟨_, _, tcpSettings config, _, _,
    buildConfig_of_ok _ _ _ _ hc (switchTransport_tcp config hsel), rfl, rfl,
    by rw [ht], by rw [ht], rfl, ?_, ?_⟩
  · exact fun hne => tcpHeaders_of_ne_nil _ hne
  · exact fun hne => tcpHeaders_of_ne_nil _ hne

/-- C6 at the header-splitting example: the request header `A` with value
`v1;;;v2` gives the map with the single entry `A ↦ [v1, v2]`; and with the
repeated key of `mixedConfig` the last entry of `A` is the one kept. -/
theorem C6_tcp_http_headers_split_witness :
    (∃ vc inbound tcp req resp,
      buildConfig unaryUUID headerExampleConfig = .ok vc ∧ vc.Inbounds = [inbound] ∧
      inbound.StreamSettings.TcpSettings = some tcp ∧
      tcp.Request = some req ∧ tcp.Response = some resp ∧
      req.Path = stringsSplit headerExampleConfig.Tcp.Request.Path "," ∧
      (headerExampleConfig.Tcp.Request.Headers ≠ [] →
        ∃ m, req.Headers = some m ∧
          LastWriteWins (fun h => stringsSplit h.Value ";;;")
            headerExampleConfig.Tcp.Request.Headers m) ∧
      (headerExampleConfig.Tcp.Response.Headers ≠ [] →
        ∃ m, resp.Headers = some m ∧
          LastWriteWins (fun h => stringsSplit h.Value ";;;")
            headerExampleConfig.Tcp.Response.Headers m)) ∧
    tcpHeaders headerExampleConfig.Tcp.Request.Headers =
      some ⟨[("A", ["v1", "v2"])]⟩ ∧
    tcpHeaders mixedConfig.Tcp.Request.Headers =
      some ⟨[("A", ["q"]), ("B", ["z"])]⟩ ∧
    stringsSplit mixedConfig.Tcp.Request.Path "," = ["/", "/a"] :=
  ⟨C6_tcp_http_headers_split unaryUUID headerExampleConfig rfl rfl (by decide),
    by decide, by decide, by decide⟩

/-- C7: in the document built, the headers field of each populated
sub-object that has one (Tcp request, Tcp response, WebSocket) is nil if and
only if the corresponding input header list is empty, is never an allocated
map without entry, and is serialised exactly when the list is not empty. -/
theorem C7_headers_absent_iff_no_header (newUUID : Nat → Except String String)
    (config : Config)
    (hsel : supportedTransport config.TransportType)
    (hgen : identifiersResolved newUUID config = true) :
    ∃ vc inbound,
      buildConfig newUUID config = .ok vc ∧ vc.Inbounds = [inbound] ∧
      (∀ tcp req, inbound.StreamSettings.TcpSettings = some tcp → tcp.Request = some req →
        AbsentIffEmpty config.Tcp.Request.Headers req.Headers ∧
        ("headers" ∈ (marshalTcpRequest req).keys ↔ config.Tcp.Request.Headers ≠ [])) ∧
      (∀ tcp resp, inbound.StreamSettings.TcpSettings = some tcp → tcp.Response = some resp →
        AbsentIffEmpty config.Tcp.Response.Headers resp.Headers ∧
        ("headers" ∈ (marshalTcpResponse resp).keys ↔ config.Tcp.Response.Headers ≠ [])) ∧
      (∀ ws, inbound.StreamSettings.WsSettings = some ws →
        AbsentIffEmpty config.WebSocket.Headers ws.Headers ∧
        ("headers" ∈ (marshalWebSocket ws).keys ↔ config.WebSocket.Headers ≠ [])) := by
  obtain ⟨clients, hc⟩ := (identifiersResolved_iff newUUID config).1 hgen
  have hkey : ∀ {α : Type} (hs : List ConfigHeader) (headers : Option (StrMap α))
      (f : α → Json), AbsentIffEmpty hs headers →
      ("headers" ∈ (Json.omitEmptyMap "headers" f headers).map Prod.fst ↔ hs ≠ []) := by
    intro α hs headers f h
    rw [← not_iff_not, not_not, ← omitEmptyMap_eq_nil_iff hs headers f h]
    cases headers with
    | none => simp [Json.omitEmptyMap]
    | some m =>
      by_cases hm : m.len = 0
      · simp [Json.omitEmptyMap, hm]
      · simp [Json.omitEmptyMap, hm]
  rcases hsel with h | h | h | h
  · refine ⟨_, _, buildConfig_of_ok _ _ _ _ hc (switchTransport_tcp config h), rfl, ?_, ?_, ?_⟩
    · intro tcp req htcp hreq
      simp only [initialStreamSettings, Option.some.injEq] at htcp
      subst htcp
      unfold tcpSettings at hreq
      by_cases hh : TcpTypeHttp = config.Tcp.Type_
      · rw [if_pos hh] at hreq
        simp only [Option.some.injEq] at hreq
        subst hreq
        have hA := tcpHeaders_absentIffEmpty config.Tcp.Request.Headers
        refine ⟨hA, ?_⟩
        have := hkey _ _ (Json.ofSlice Json.str) hA
        simpa [marshalTcpRequest, Json.keys, TcpTypeHttp] using this
      · rw [if_neg hh] at hreq
        simp at hreq
    · intro tcp resp htcp hresp
      simp only [initialStreamSettings, Option.some.injEq] at htcp
      subst htcp
      unfold tcpSettings at hresp
      by_cases hh : TcpTypeHttp = config.Tcp.Type_
      · rw [if_pos hh] at hresp
        simp only [Option.some.injEq] at hresp
        subst hresp
        have hA := tcpHeaders_absentIffEmpty config.Tcp.Response.Headers
        refine ⟨hA, ?_⟩
        have := hkey _ _ (Json.ofSlice Json.str) hA
        simpa [marshalTcpResponse, Json.keys, TcpTypeHttp] using this
      · rw [if_neg hh] at hresp
        simp at hresp
    · intro ws hws
      simp [initialStreamSettings] at hws
  · refine ⟨_, _, buildConfig_of_ok _ _ _ _ hc (switchTransport_ws config h), rfl, ?_, ?_, ?_⟩
    · intro tcp req htcp
      simp [initialStreamSettings] at htcp
    · intro tcp resp htcp
      simp [initialStreamSettings] at htcp
    · intro ws hws
      simp only [initialStreamSettings, Option.some.injEq] at hws
      subst hws
      have hA := wsHeaders_absentIffEmpty config.WebSocket.Headers
      refine ⟨hA, ?_⟩
      have := hkey _ _ Json.str hA
      simpa [marshalWebSocket, wsSettings, Json.keys] using this
  · refine ⟨_, _, buildConfig_of_ok _ _ _ _ hc (switchTransport_kcp config h), rfl, ?_, ?_, ?_⟩
    · intro tcp req htcp
      simp [initialStreamSettings] at htcp
    · intro tcp resp htcp
      simp [initialStreamSettings] at htcp
    · intro ws hws
      simp [initialStreamSettings] at hws
  · refine ⟨_, _, buildConfig_of_ok _ _ _ _ hc (switchTransport_http2 config h), rfl, ?_, ?_, ?_⟩
    · intro tcp req htcp
      simp [initialStreamSettings] at htcp
    · intro tcp resp htcp
      simp [initialStreamSettings] at htcp
    · intro ws hws
      simp [initialStreamSettings] at hws

/-- C7 at the input `mixedConfig` (Tcp, `http`, three request headers, no
response header): the request headers are serialised, the response headers
are left out. -/
theorem C7_headers_absent_iff_no_header_witness :
    (∃ vc inbound,
      buildConfig unaryUUID mixedConfig = .ok vc ∧ vc.Inbounds = [inbound] ∧
      (∀ tcp req, inbound.StreamSettings.TcpSettings = some tcp → tcp.Request = some req →
        AbsentIffEmpty mixedConfig.Tcp.Request.Headers req.Headers ∧
        ("headers" ∈ (marshalTcpRequest req).keys ↔ mixedConfig.Tcp.Request.Headers ≠ [])) ∧
      (∀ tcp resp, inbound.StreamSettings.TcpSettings = some tcp → tcp.Response = some resp →
        AbsentIffEmpty mixedConfig.Tcp.Response.Headers resp.Headers ∧
        ("headers" ∈ (marshalTcpResponse resp).keys ↔
          mixedConfig.Tcp.Response.Headers ≠ [])) ∧
      (∀ ws, inbound.StreamSettings.WsSettings = some ws →
        AbsentIffEmpty mixedConfig.WebSocket.Headers ws.Headers ∧
        ("headers" ∈ (marshalWebSocket ws).keys ↔ mixedConfig.WebSocket.Headers ≠ []))) ∧
    (tcpSettings mixedConfig).Response.map (fun r => (marshalTcpResponse r).keys) =
      some ["version", "status", "reason"] ∧
    (tcpSettings mixedConfig).Request.map (fun r => (marshalTcpRequest r).keys) =
      some ["version", "method", "path", "headers"] ∧
    (marshalWebSocket (wsSettings sampleConfig)).keys = ["path"] :=
  ⟨C7_headers_absent_iff_no_header unaryUUID mixedConfig (by decide) (by decide),
    by decide, by decide, by decide⟩

/-- C8: for a supported selector, the network string and the settings
pointer of the document are those of the selector (`tcp` with the Tcp
settings, `ws` with the WebSocket settings, `kcp` with the Kcp settings,
`http` with the Http2 settings), and an input that differs only in the
blocks of unselected transports yields the same document. -/
theorem C8_network_and_settings_of_selector (newUUID : Nat → Except String String)
    (config : Config)
    (hsel : supportedTransport config.TransportType)
    (hgen : identifiersResolved newUUID config = true) :
    ∃ vc inbound,
      buildConfig newUUID config = .ok vc ∧ vc.Inbounds = [inbound] ∧
      (config.TransportType = TransportTypeTcp →
        inbound.StreamSettings.Network = "tcp" ∧
        inbound.StreamSettings.TcpSettings = some (tcpSettings config)) ∧
      (config.TransportType = TransportTypeWebSocket →
        inbound.StreamSettings.Network = "ws" ∧
        inbound.StreamSettings.WsSettings = some (wsSettings config)) ∧
      (config.TransportType = TransportTypeKcp →
        inbound.StreamSettings.Network = "kcp" ∧
        inbound.StreamSettings.KcpSettings = some (kcpSettings config)) ∧
      (config.TransportType = TransportTypeHttp2 →
        inbound.StreamSettings.Network = "http" ∧
        inbound.StreamSettings.HttpSettings = some (httpSettings config)) ∧
      ∀ other : Config,
        other.Clients = config.Clients → other.V2rayPort = config.V2rayPort →
        other.TransportType = config.TransportType →
        (config.TransportType = TransportTypeTcp → other.Tcp = config.Tcp) →
        (config.TransportType = TransportTypeWebSocket →
          other.WebSocket = config.WebSocket) →
        (config.TransportType = TransportTypeKcp → other.Kcp = config.Kcp) →
        (config.TransportType = TransportTypeHttp2 → other.Http2 = config.Http2) →
        buildConfig newUUID other = .ok vc := by
  obtain ⟨clients, hc⟩ := (identifiersResolved_iff newUUID config).1 hgen
  rcases hsel with h | h | h | h
  · refine ⟨_, _, buildConfig_of_ok _ _ _ _ hc (switchTransport_tcp config h), rfl,
      fun _ => ⟨rfl, rfl⟩, ?_, ?_, ?_, ?_⟩
    · intro h2; rw [h] at h2; exact absurd h2 (by decide)
    · intro h2; rw [h] at h2; exact absurd h2 (by decide)
    · intro h2; rw [h] at h2; exact absurd h2 (by decide)
    · intro other hcl hport hty htcp _ _ _
      have hc2 : appendClients newUUID other.Clients 0 [] = .ok clients := by rw [hcl]; exact hc
      rw [buildConfig_of_ok _ _ _ _ hc2 (switchTransport_tcp other (hty.trans h))]
      have : tcpSettings other = tcpSettings config := by
        unfold tcpSettings; rw [htcp h]
      rw [this, hport]
  · refine ⟨_, _, buildConfig_of_ok _ _ _ _ hc (switchTransport_ws config h), rfl,
      ?_, fun _ => ⟨rfl, rfl⟩, ?_, ?_, ?_⟩
    · intro h2; rw [h] at h2; exact absurd h2 (by decide)
    · intro h2; rw [h] at h2; exact absurd h2 (by decide)
    · intro h2; rw [h] at h2; exact absurd h2 (by decide)
    · intro other hcl hport hty _ hws _ _
      have hc2 : appendClients newUUID other.Clients 0 [] = .ok clients := by rw [hcl]; exact hc
      rw [buildConfig_of_ok _ _ _ _ hc2 (switchTransport_ws other (hty.trans h))]
      have : wsSettings other = wsSettings config := by
        unfold wsSettings; rw [hws h]
      rw [this, hport]
  · refine ⟨_, _, buildConfig_of_ok _ _ _ _ hc (switchTransport_kcp config h), rfl,
      ?_, ?_, fun _ => ⟨rfl, rfl⟩, ?_, ?_⟩
    · intro h2; rw [h] at h2; exact absurd h2 (by decide)
    · intro h2; rw [h] at h2; exact absurd h2 (by decide)
    · intro h2; rw [h] at h2; exact absurd h2 (by decide)
    · intro other hcl hport hty _ _ hkcp _
      have hc2 : appendClients newUUID other.Clients 0 [] = .ok clients := by rw [hcl]; exact hc
      rw [buildConfig_of_ok _ _ _ _ hc2 (switchTransport_kcp other (hty.trans h))]
      have : kcpSettings other = kcpSettings config := by
        unfold kcpSettings; rw [hkcp h]
      rw [this, hport]
  · refine ⟨_, _, buildConfig_of_ok _ _ _ _ hc (switchTransport_http2 config h), rfl,
      ?_, ?_, ?_, fun _ => ⟨rfl, rfl⟩, ?_⟩
    · intro h2; rw [h] at h2; exact absurd h2 (by decide)
    · intro h2; rw [h] at h2; exact absurd h2 (by decide)
    · intro h2; rw [h] at h2; exact absurd h2 (by decide)
    · intro other hcl hport hty _ _ _ hh2
      have hc2 : appendClients newUUID other.Clients 0 [] = .ok clients := by rw [hcl]; exact hc
      rw [buildConfig_of_ok _ _ _ _ hc2 (switchTransport_http2 other (hty.trans h))]
      have : httpSettings other = httpSettings config := by
        unfold httpSettings; rw [hh2 h]
      rw [this, hport]

/-- C8 at the WebSocket sample input, with the network strings of the four
selectors on `mixedConfig`. -/
theorem C8_network_and_settings_of_selector_witness :
    (∃ vc inbound,
      buildConfig unaryUUID sampleConfig = .ok vc ∧ vc.Inbounds = [inbound] ∧
      (sampleConfig.TransportType = TransportTypeTcp →
        inbound.StreamSettings.Network = "tcp" ∧
        inbound.StreamSettings.TcpSettings = some (tcpSettings sampleConfig)) ∧
      (sampleConfig.TransportType = TransportTypeWebSocket →
        inbound.StreamSettings.Network = "ws" ∧
        inbound.StreamSettings.WsSettings = some (wsSettings sampleConfig)) ∧
      (sampleConfig.TransportType = TransportTypeKcp →
        inbound.StreamSettings.Network = "kcp" ∧
        inbound.StreamSettings.KcpSettings = some (kcpSettings sampleConfig)) ∧
      (sampleConfig.TransportType = TransportTypeHttp2 →
        inbound.StreamSettings.Network = "http" ∧
        inbound.StreamSettings.HttpSettings = some (httpSettings sampleConfig)) ∧
      ∀ other : Config,
        other.Clients = sampleConfig.Clients → other.V2rayPort = sampleConfig.V2rayPort →
        other.TransportType = sampleConfig.TransportType →
        (sampleConfig.TransportType = TransportTypeTcp → other.Tcp = sampleConfig.Tcp) →
        (sampleConfig.TransportType = TransportTypeWebSocket →
          other.WebSocket = sampleConfig.WebSocket) →
        (sampleConfig.TransportType = TransportTypeKcp → other.Kcp = sampleConfig.Kcp) →
        (sampleConfig.TransportType = TransportTypeHttp2 →
          other.Http2 = sampleConfig.Http2) →
        buildConfig unaryUUID other = .ok vc) ∧
    [1, 2, 3, 4].map (fun t =>
        (switchTransport { mixedConfig with TransportType := t } initialStreamSettings).toOption.map
          (fun ss => ss.Network))
      = [some "tcp", some "ws", some "kcp", some "http"] :=
  ⟨C8_network_and_settings_of_selector unaryUUID sampleConfig (by decide) (by decide),
    by decide⟩

/-- C9: with the WebSocket selector, the output `WsSettings.Path` is the
input path, and when the input header list is not empty the output headers
map has exactly the keys of the list, each mapped to the value of the last
entry with that key. -/
theorem C9_websocket_path_and_headers (newUUID : Nat → Except String String)
    (config : Config)
    (hsel : config.TransportType = TransportTypeWebSocket)
    (hgen : identifiersResolved newUUID config = true) :
    ∃ vc inbound ws,
      buildConfig newUUID config = .ok vc ∧ vc.Inbounds = [inbound] ∧
      inbound.StreamSettings.WsSettings = some ws ∧
      ws.Path = config.WebSocket.Path ∧
      (config.WebSocket.Headers ≠ [] →
        ∃ m, ws.Headers = some m ∧
          LastWriteWins (fun h => h.Value) config.WebSocket.Headers m) := by
  obtain ⟨clients, hc⟩ := (identifiersResolved_iff newUUID config).1 hgen
  exact ⟨_, _, wsSettings config,
    buildConfig_of_ok _ _ _ _ hc (switchTransport_ws config hsel), rfl, rfl, rfl,
    fun hne => wsHeaders_of_ne_nil _ hne⟩

/-- C9 at `mixedConfig` with the WebSocket selector: of the two `Host`
headers the second is kept. -/
theorem C9_websocket_path_and_headers_witness :
    (∃ vc inbound ws,
      buildConfig unaryUUID { mixedConfig with TransportType := TransportTypeWebSocket }
        = .ok vc ∧ vc.Inbounds = [inbound] ∧
      inbound.StreamSettings.WsSettings = some ws ∧
      ws.Path = "/ray" ∧
      (mixedConfig.WebSocket.Headers ≠ [] →
        ∃ m, ws.Headers = some m ∧
          LastWriteWins (fun h => h.Value) mixedConfig.WebSocket.Headers m)) ∧
    wsSettings mixedConfig = ⟨"/ray", some ⟨[("Host", "b")]⟩⟩ :=
  ⟨C9_websocket_path_and_headers unaryUUID
      { mixedConfig with TransportType := TransportTypeWebSocket } rfl (by decide),
    by decide⟩

/-- C10: with the Kcp selector, the output `KcpSettings` carries each field
of the input Kcp block unchanged, the up-link and down-link capacities and
the read and write buffer sizes in their own fields, and its header type is
the input type. -/
theorem C10_kcp_fields_copied (newUUID : Nat → Except String String)
    (config : Config)
    (hsel : config.TransportType = TransportTypeKcp)
    (hgen : identifiersResolved newUUID config = true) :
    ∃ vc inbound kcp,
      buildConfig newUUID config = .ok vc ∧ vc.Inbounds = [inbound] ∧
      inbound.StreamSettings.KcpSettings = some kcp ∧
      kcp.Mtu = config.Kcp.Mtu ∧ kcp.Tti = config.Kcp.Tti ∧
      kcp.UpLinkCapacity = config.Kcp.UpLinkCapacity ∧
      kcp.DownLinkCapacity = config.Kcp.DownLinkCapacity ∧
      kcp.Congestion = config.Kcp.Congestion ∧
      kcp.ReadBufferSize = config.Kcp.ReadBufferSize ∧
      kcp.WriteBufferSize = config.Kcp.WriteBufferSize ∧
      kcp.Header.Type_ = config.Kcp.Type_ := by
  obtain ⟨clients, hc⟩ := (identifiersResolved_iff newUUID config).1 hgen
  exact ⟨_, _, kcpSettings config,
    buildConfig_of_ok _ _ _ _ hc (switchTransport_kcp config hsel), rfl, rfl,
    rfl, rfl, rfl, rfl, rfl, rfl, rfl, rfl⟩

/-- C10 at `mixedConfig` with the Kcp selector: the eight values of the
input block, all different, are found in the fields of the same name. -/
theorem C10_kcp_fields_copied_witness :
    (∃ vc inbound kcp,
      buildConfig unaryUUID { mixedConfig with TransportType := TransportTypeKcp }
        = .ok vc ∧ vc.Inbounds = [inbound] ∧
      inbound.StreamSettings.KcpSettings = some kcp ∧
      kcp.Mtu = 1350 ∧ kcp.Tti = 20 ∧
      kcp.UpLinkCapacity = 5 ∧
      kcp.DownLinkCapacity = 20 ∧
      kcp.Congestion = true ∧
      kcp.ReadBufferSize = 1 ∧
      kcp.WriteBufferSize = 2 ∧
      kcp.Header.Type_ = "srtp") ∧
    kcpSettings mixedConfig = ⟨⟨"srtp"⟩, 1350, 20, 5, 20, true, 1, 2⟩ :=
  ⟨C10_kcp_fields_copied unaryUUID
      { mixedConfig with TransportType := TransportTypeKcp } rfl (by decide),
    by decide⟩

/-- C11: with the Http2 selector, the output `HttpSettings.Host` is the
input host split on `,` and `HttpSettings.Path` is the input path.  The list
has one element more than the host has commas, no element contains a comma,
and the elements joined with `,` give the host back: one element per
segment, in order, empty segments kept. -/
theorem C11_http2_host_split (newUUID : Nat → Except String String)
    (config : Config)
    (hsel : config.TransportType = TransportTypeHttp2)
    (hgen : identifiersResolved newUUID config = true) :
    ∃ vc inbound http,
      buildConfig newUUID config = .ok vc ∧ vc.Inbounds = [inbound] ∧
      inbound.StreamSettings.HttpSettings = some http ∧
      http.Host = stringsSplit config.Http2.Host "," ∧
      http.Path = config.Http2.Path ∧
      http.Host.length = config.Http2.Host.data.count ',' + 1 ∧
      (∀ p ∈ http.Host, ',' ∉ p.data) ∧
      stringsJoin http.Host "," = config.Http2.Host := by
  obtain ⟨clients, hc⟩ := (identifiersResolved_iff newUUID config).1 hgen
  refine ⟨_, _, httpSettings config,
    buildConfig_of_ok _ _ _ _ hc (switchTransport_http2 config hsel), rfl, rfl, rfl, rfl,
    ?_, ?_, ?_⟩
  · have h1 : (",".data : List Char) = [','] := rfl
    simp only [httpSettings, stringsSplit, h1, List.cons_ne_nil, if_false, List.length_map]
    exact splitLoop_single_length ',' _ _
  · intro p hp
    have h1 : (",".data : List Char) = [','] := rfl
    simp only [httpSettings, stringsSplit, h1, List.cons_ne_nil, if_false, List.mem_map] at hp
    obtain ⟨l, hl, hlp⟩ := hp
    subst hlp
    exact splitLoop_single_not_mem ',' _ [] (by simp) l hl
  · exact stringsJoin_stringsSplit _ _ (by decide)

/-- C11 at `mixedConfig` with the Http2 selector, and the split of a host
with an empty segment in the middle and one at the end. -/
theorem C11_http2_host_split_witness :
    (∃ vc inbound http,
      buildConfig unaryUUID { mixedConfig with TransportType := TransportTypeHttp2 }
        = .ok vc ∧ vc.Inbounds = [inbound] ∧
      inbound.StreamSettings.HttpSettings = some http ∧
      http.Host = stringsSplit "a.com,b.com" "," ∧
      http.Path = "/h" ∧
      http.Host.length = "a.com,b.com".data.count ',' + 1 ∧
      (∀ p ∈ http.Host, ',' ∉ p.data) ∧
      stringsJoin http.Host "," = "a.com,b.com") ∧
    stringsSplit "a.com,b.com" "," = ["a.com", "b.com"] ∧
    stringsSplit "a,,b," "," = ["a", "", "b", ""] :=
  ⟨C11_http2_host_split unaryUUID
      { mixedConfig with TransportType := TransportTypeHttp2 } rfl (by decide),
    by decide, by decide⟩

/-- C12: whenever `SetConfig` succeeds, the document it has written has
exactly one inbound and exactly one outbound; the inbound listens on
`127.0.0.1`, on the port `V2rayPort` of the input, with protocol `vmess` and
stream security `none`; the outbound has protocol `freedom` and an empty
settings object. -/
theorem C12_one_inbound_one_outbound (env : Env) (configPath : String) (config : Config)
    (hok : (SetConfig env configPath config).1 = none) :
    ∃ vc inbound outbound content,
      buildConfig env.newUUID config = .ok vc ∧ jsonMarshal vc = .ok content ∧
      (SetConfig env configPath config).2 =
        [.mkdirAll configPath, .openFile configPath, .write configPath content,
         .close configPath] ∧
      vc.Inbounds = [inbound] ∧ vc.Outbounds = [outbound] ∧
      inbound.Listen = "127.0.0.1" ∧ inbound.Port = config.V2rayPort ∧
      inbound.Protocol = "vmess" ∧ inbound.StreamSettings.Security = "none" ∧
      outbound.Protocol = "freedom" ∧
      content.field "inbounds" = some (Json.arr [marshalInbound inbound]) ∧
      content.field "outbounds" =
        some (Json.arr [Json.obj [("protocol", Json.str "freedom"),
          ("settings", Json.obj [])]]) ∧
      (marshalInbound inbound).field "listen" = some (Json.str "127.0.0.1") ∧
      (marshalInbound inbound).field "port" = some (Json.num config.V2rayPort) ∧
      (marshalInbound inbound).field "protocol" = some (Json.str "vmess") ∧
      (marshalStreamSettings inbound.StreamSettings).field "security" =
        some (Json.str "none") := by
  obtain ⟨vc, content, hb, hm, ht⟩ := SetConfig_success env configPath config hok
  obtain ⟨clients, ss, _, hs, hvc⟩ := buildConfig_ok_inv _ _ _ hb
  have hsec := switchTransport_security config ss hs
  subst hvc
  simp only [jsonMarshal, Except.ok.injEq] at hm
  subst hm
  refine ⟨_, _, _, _, hb, rfl, ht, rfl, rfl, rfl, rfl, rfl, hsec, rfl, rfl, rfl, rfl, rfl,
    rfl, ?_⟩
  simp only [marshalStreamSettings, hsec]
  rfl

/-- C12 at the end-to-end example: port 10086, the WebSocket selector, path
`/ray` and no header give `port` 10086, `network` `ws`, `wsSettings` with the
single field `path` equal to `/ray`. -/
theorem C12_one_inbound_one_outbound_witness :
    (SetConfig okEnv ConfigPath sampleConfig).1 = none ∧
    (∃ vc inbound outbound content,
      buildConfig okEnv.newUUID sampleConfig = .ok vc ∧ jsonMarshal vc = .ok content ∧
      (SetConfig okEnv ConfigPath sampleConfig).2 =
        [.mkdirAll ConfigPath, .openFile ConfigPath, .write ConfigPath content,
         .close ConfigPath] ∧
      vc.Inbounds = [inbound] ∧ vc.Outbounds = [outbound] ∧
      inbound.Listen = "127.0.0.1" ∧ inbound.Port = 10086 ∧
      inbound.Protocol = "vmess" ∧ inbound.StreamSettings.Security = "none" ∧
      outbound.Protocol = "freedom" ∧
      content.field "inbounds" = some (Json.arr [marshalInbound inbound]) ∧
      content.field "outbounds" =
        some (Json.arr [Json.obj [("protocol", Json.str "freedom"),
          ("settings", Json.obj [])]]) ∧
      (marshalInbound inbound).field "listen" = some (Json.str "127.0.0.1") ∧
      (marshalInbound inbound).field "port" = some (Json.num 10086) ∧
      (marshalInbound inbound).field "protocol" = some (Json.str "vmess") ∧
      (marshalStreamSettings inbound.StreamSettings).field "security" =
        some (Json.str "none")) ∧
    (switchTransport sampleConfig initialStreamSettings).toOption.map
        (fun ss => (marshalStreamSettings ss).keys) =
      some ["network", "security", "wsSettings"] ∧
    (marshalWebSocket (wsSettings sampleConfig)).keys = ["path"] ∧
    (wsSettings sampleConfig).Path = "/ray" :=
  ⟨rfl, C12_one_inbound_one_outbound okEnv ConfigPath sampleConfig rfl,
    by decide, by decide, by decide⟩

/-- C18: `SetConfig` leaves the struct behind its `config` argument as it
was, whether it succeeds or fails: the loop assigns a synthesized identifier
to its own variable `client`, a copy of the element, and appends that copy to
the output; the loop computes the output clients of `appendClients`. -/
theorem C18_input_config_unchanged (env : Env) (configPath : String) (config : Config) :
    configAfterSetConfig env configPath config = config ∧
    (clientLoop env.newUUID config.Clients.length 0 (initialLoopMemory config)).1.config
      = config ∧
    ((clientLoop env.newUUID config.Clients.length 0 (initialLoopMemory config)).2 = none →
      appendClients env.newUUID config.Clients 0 [] =
        .ok (clientLoop env.newUUID config.Clients.length 0
          (initialLoopMemory config)).1.clients) ∧
    (∀ e,
      (clientLoop env.newUUID config.Clients.length 0 (initialLoopMemory config)).2 = some e →
      appendClients env.newUUID config.Clients 0 [] = .error e) := by
  have h := clientLoop_spec env.newUUID config.Clients.length 0 (initialLoopMemory config)
    config.Clients rfl rfl
  refine ⟨?_, h.1, h.2.1, h.2.2⟩
  unfold configAfterSetConfig
  cases env.mkdirAll configPath with
  | some e => rfl
  | none => exact h.1

/-- C18 at the sample input: the output client carries the synthesized
identifier `u`, the input client still has the empty identifier. -/
theorem C18_input_config_unchanged_witness :
    configAfterSetConfig okEnv ConfigPath sampleConfig = sampleConfig ∧
    (configAfterSetConfig okEnv ConfigPath sampleConfig).Clients = [⟨"", 0⟩] ∧
    (clientLoop unaryUUID sampleConfig.Clients.length 0
      (initialLoopMemory sampleConfig)).1.clients = [⟨"u", 0⟩] ∧
    appendClients unaryUUID sampleConfig.Clients 0 [] = .ok [⟨"u", 0⟩] :=
  ⟨(C18_input_config_unchanged okEnv ConfigPath sampleConfig).1, by decide, by decide, rfl⟩

/-- C19: the re-encoding by splitting loses nothing.  With the Tcp selector
and header type `http`, the output request path is not empty and joined
with `,` is the input path, and every list of a request or response headers
map is not empty and joined with `;;;` is the value of the last input entry
with its key; with the Http2 selector the output host list is not empty and
joined with `,` is the input host; the empty string splits into the list of
the empty string. -/
theorem C19_split_join_round_trip (newUUID : Nat → Except String String)
    (config : Config)
    (hgen : identifiersResolved newUUID config = true) :
    (config.TransportType = TransportTypeTcp → config.Tcp.Type_ = TcpTypeHttp →
      ∃ vc inbound tcp req resp,
        buildConfig newUUID config = .ok vc ∧ vc.Inbounds = [inbound] ∧
        inbound.StreamSettings.TcpSettings = some tcp ∧
        tcp.Request = some req ∧ tcp.Response = some resp ∧
        req.Path ≠ [] ∧ stringsJoin req.Path "," = config.Tcp.Request.Path ∧
        (∀ m k parts, req.Headers = some m → m.get k = some parts →
          parts ≠ [] ∧
          ∃ pre h post, config.Tcp.Request.Headers = pre ++ h :: post ∧ h.Key = k ∧
            (∀ x ∈ post, x.Key ≠ k) ∧ stringsJoin parts ";;;" = h.Value) ∧
        (∀ m k parts, resp.Headers = some m → m.get k = some parts →
          parts ≠ [] ∧
          ∃ pre h post, config.Tcp.Response.Headers = pre ++ h :: post ∧ h.Key = k ∧
            (∀ x ∈ post, x.Key ≠ k) ∧ stringsJoin parts ";;;" = h.Value)) ∧
    (config.TransportType = TransportTypeHttp2 →
      ∃ vc inbound http,
        buildConfig newUUID config = .ok vc ∧ vc.Inbounds = [inbound] ∧
        inbound.StreamSettings.HttpSettings = some http ∧
        http.Host ≠ [] ∧ stringsJoin http.Host "," = config.Http2.Host) ∧
    (∀ sep : String, sep ≠ "" → stringsSplit "" sep = [""]) := by
  obtain ⟨clients, hc⟩ := (identifiersResolved_iff newUUID config).1 hgen
  refine ⟨?_, ?_, fun sep hsep => stringsSplit_empty sep hsep⟩
  · intro hsel hhttp
    have ht : tcpSettings config =
        { Header := ⟨config.Tcp.Type_⟩
          Request := some
            { Version := config.Tcp.Request.Version
              Method := config.Tcp.Request.Method
              Path := stringsSplit config.Tcp.Request.Path ","
              Headers := tcpHeaders config.Tcp.Request.Headers }
          Response := some
            { Version := config.Tcp.Response.Version
              Status := config.Tcp.Response.Status
              Reason := config.Tcp.Response.Reason
              Headers := tcpHeaders config.Tcp.Response.Headers } } := by
      unfold tcpSettings
      rw [if_pos hhttp.symm]
    refine ⟨_, _, tcpSettings config,
      { Version := config.Tcp.Request.Version
        Method := config.Tcp.Request.Method
        Path := stringsSplit config.Tcp.Request.Path ","
        Headers := tcpHeaders config.Tcp.Request.Headers },
      { Version := config.Tcp.Response.Version
        Status := config.Tcp.Response.Status
        Reason := config.Tcp.Response.Reason
        Headers := tcpHeaders config.Tcp.Response.Headers },
      buildConfig_of_ok _ _ _ _ hc (switchTransport_tcp config hsel), rfl, rfl,
      by rw [ht], by rw [ht],
      stringsSplit_ne_nil config.Tcp.Request.Path "," (by decide),
      stringsJoin_stringsSplit config.Tcp.Request.Path "," (by decide), ?_, ?_⟩
    · intro m k parts hm hget
      exact tcpHeaders_roundtrip _ m hm k parts hget
    · intro m k parts hm hget
      exact tcpHeaders_roundtrip _ m hm k parts hget
  · intro hsel
    exact ⟨_, _, httpSettings config,
      buildConfig_of_ok _ _ _ _ hc (switchTransport_http2 config hsel), rfl, rfl,
      stringsSplit_ne_nil config.Http2.Host "," (by decide),
      stringsJoin_stringsSplit config.Http2.Host "," (by decide)⟩

/-- C19 at the Http2 selector on `mixedConfig`, with the round trips of the
example values. -/
theorem C19_split_join_round_trip_witness :
    (∃ vc inbound http,
      buildConfig unaryUUID { mixedConfig with TransportType := TransportTypeHttp2 }
        = .ok vc ∧ vc.Inbounds = [inbound] ∧
      inbound.StreamSettings.HttpSettings = some http ∧
      http.Host ≠ [] ∧ stringsJoin http.Host "," = "a.com,b.com") ∧
    stringsJoin (stringsSplit "v1;;;v2" ";;;") ";;;" = "v1;;;v2" ∧
    stringsJoin ["v1", "v2"] ";;;" = "v1;;;v2" ∧
    stringsSplit "" "," = [""] ∧ stringsJoin [""] "," = "" :=
  ⟨(C19_split_join_round_trip unaryUUID
      { mixedConfig with TransportType := TransportTypeHttp2 } (by decide)).2.1 rfl,
    by decide, by decide, by decide, by decide⟩

/-- C20: `SetConfig` returns the error of the first failing step, in the
order directory creation, identifier synthesis, selector validation, file
opening, file writing.  A failing directory creation gives its error for
every input, whatever the selector; with a succeeding directory creation
and an unsupported selector, the directory creation is the only call made:
the directory exists and no file is opened or written. -/
theorem C20_first_failing_step (env : Env) (configPath : String) (config : Config) :
    (∀ e, env.mkdirAll configPath = some e →
      SetConfig env configPath config =
        (some ("配置V2ray失败: " ++ e), [.mkdirAll configPath]) ∧
      (SetConfig env configPath config).1 ≠
        some ("未受支持的传输方式: " ++ fmtInt config.TransportType)) ∧
    (env.mkdirAll configPath = none →
      ∀ e, appendClients env.newUUID config.Clients 0 [] = .error e →
        SetConfig env configPath config = (some e, [.mkdirAll configPath]) ∧
        ∃ k err, env.newUUID k = .error err ∧ e = "无法生成用户ID: " ++ err) ∧
    (env.mkdirAll configPath = none → identifiersResolved env.newUUID config = true →
      ¬ supportedTransport config.TransportType →
        SetConfig env configPath config =
          (some ("未受支持的传输方式: " ++ fmtInt config.TransportType),
            [.mkdirAll configPath])) ∧
    (env.mkdirAll configPath = none →
      ∀ vc, buildConfig env.newUUID config = .ok vc →
        ∃ content, jsonMarshal vc = .ok content ∧
          (∀ e, env.openFile configPath = some e →
            SetConfig env configPath config =
              (some ("无法打开配置文件: " ++ e),
                [.mkdirAll configPath, .openFile configPath])) ∧
          (env.openFile configPath = none →
            (∀ e, env.write configPath content = some e →
              SetConfig env configPath config =
                (some ("写入配置失败: " ++ e),
                  [.mkdirAll configPath, .openFile configPath,
                   .write configPath content, .close configPath])) ∧
            (env.write configPath content = none →
              SetConfig env configPath config =
                (none,
                  [.mkdirAll configPath, .openFile configPath,
                   .write configPath content, .close configPath])))) := by
  refine ⟨?_, ?_, ?_, ?_⟩
  · intro e he
    have hS : SetConfig env configPath config =
        (some ("配置V2ray失败: " ++ e), [.mkdirAll configPath]) := by
      simp [SetConfig, he]
    refine ⟨hS, ?_⟩
    rw [hS]
    intro h
    injection h with h
    have h1 := congrArg (fun s => s.data.head?) h
    simp only [String.data_append] at h1
    have h2 : ("配置V2ray失败: ".data ++ e.data).head? = some '配' := rfl
    have h3 : ("未受支持的传输方式: ".data ++ (fmtInt config.TransportType).data).head?
        = some '未' := rfl
    rw [h2, h3] at h1
    exact absurd h1 (by decide)
  · intro hd e he
    have hb : buildConfig env.newUUID config = .error e := by
      simp [buildConfig, he]
    exact ⟨by simp [SetConfig, hd, hb], appendClients_error_form _ _ _ _ _ he⟩
  · intro hd hgen hsel
    obtain ⟨clients, hc⟩ := (identifiersResolved_iff env.newUUID config).1 hgen
    have hb : buildConfig env.newUUID config =
        .error ("未受支持的传输方式: " ++ fmtInt config.TransportType) := by
      simp [buildConfig, hc, switchTransport_unsupported config hsel]
    simp [SetConfig, hd, hb]
  · intro hd vc hb
    refine ⟨_, rfl, ?_, ?_⟩
    · intro e he
      simp [SetConfig, hd, hb, jsonMarshal, he]
    · intro ho
      refine ⟨?_, ?_⟩
      · intro e he
        simp [SetConfig, hd, hb, jsonMarshal, ho, he]
      · intro he
        simp [SetConfig, hd, hb, jsonMarshal, ho, he]

/-- C20 at an unsupported selector: when the directory creation fails its
error is returned, when it succeeds the unsupported-transport error is
returned after the directory creation alone. -/
theorem C20_first_failing_step_witness :
    SetConfig { okEnv with mkdirAll := fun _ => some "permission denied" } ConfigPath
        { sampleConfig with TransportType := 99 } =
      (some "配置V2ray失败: permission denied", [.mkdirAll ConfigPath]) ∧
    SetConfig okEnv ConfigPath { sampleConfig with TransportType := 99 } =
      (some "未受支持的传输方式: 99", [.mkdirAll ConfigPath]) :=
  ⟨((C20_first_failing_step { okEnv with mkdirAll := fun _ => some "permission denied" }
      ConfigPath { sampleConfig with TransportType := 99 }).1 "permission denied" rfl).1,
    (C20_first_failing_step okEnv ConfigPath { sampleConfig with TransportType := 99 }).2.2.1
      rfl (by decide) (by decide)⟩

end V2ray

namespace Webserver

/-! ## Lemmas on the supervisor -/

theorem length_ne_zero_iff (s : String) : 0 ≠ s.length ↔ s ≠ "" := by
  cases s with
  | mk l =>
    cases l with
    | nil => simp [String.length]
    | cons c cs =>
      simp only [String.length, List.length_cons, ne_eq]
      constructor
      · intro _ h
        have h1 := congrArg String.data h
        simp at h1
      · intro _; omega

theorem dropWhile_both_eq_nil_iff (p : Char → Bool) (l : List Char) :
    ((l.dropWhile p).reverse.dropWhile p).reverse = [] ↔ ∀ c ∈ l, p c = true := by
  rw [List.reverse_eq_nil_iff, List.dropWhile_eq_nil_iff]
  constructor
  · intro h
    by_cases hd : l.dropWhile p = []
    · exact List.dropWhile_eq_nil_iff.1 hd
    · have h1 := List.head_dropWhile_not p l hd
      have h2 := h _ (List.mem_reverse.2 (List.head_mem hd))
      rw [h2] at h1
      exact absurd h1 (by simp)
  · intro h c hc
    have hd : l.dropWhile p = [] := List.dropWhile_eq_nil_iff.2 h
    rw [hd] at hc
    simp at hc

/-- Trimming leaves nothing exactly when every character is white space. -/
theorem stringsTrimSpace_eq_empty_iff (s : String) :
    stringsTrimSpace s = "" ↔ ∀ c ∈ s.data, isSpace c = true := by
  unfold stringsTrimSpace
  rw [← dropWhile_both_eq_nil_iff isSpace s.data]
  constructor
  · intro h
    have h1 := congrArg String.data h
    simpa using h1
  · intro h
    rw [h]

theorem CheckNginxIsRunning_surfaced (sh : Shell) (e : String)
    (herr : sh.query.err = some e) (hres : sh.query.res ≠ "") :
    CheckNginxIsRunning sh = (false, some ("检查Nginx状态失败: " ++ e)) := by
  have h1 : decide (0 ≠ sh.query.res.length) = true :=
    decide_eq_true ((length_ne_zero_iff _).2 hres)
  unfold CheckNginxIsRunning
  rw [herr, h1]

theorem CheckNginxIsRunning_tolerated (sh : Shell)
    (h : sh.query.err = none ∨ sh.query.res = "") :
    CheckNginxIsRunning sh = (decide ("" ≠ stringsTrimSpace sh.query.res), none) := by
  unfold CheckNginxIsRunning
  rcases h with h | h
  · rw [h]
  · have h1 : decide (0 ≠ sh.query.res.length) = false := by
      rw [h]; rfl
    rw [h1]
    cases sh.query.err <;> rfl

theorem StopNginx_surfaced (sh : Shell) (e : String)
    (herr : sh.stop.err = some e) (hres : sh.stop.res ≠ "") :
    StopNginx sh = (some ("停止Nginx失败: " ++ e), [.nginxStop]) := by
  have h1 : decide (0 ≠ sh.stop.res.length) = true :=
    decide_eq_true ((length_ne_zero_iff _).2 hres)
  unfold StopNginx
  rw [herr, h1]

/-- Past the first `return`, `StopNginx` is its verification by one call of
`CheckNginxIsRunning`. -/
theorem StopNginx_verified (sh : Shell)
    (h : sh.stop.err = none ∨ sh.stop.res = "") :
    StopNginx sh =
      match CheckNginxIsRunning sh with
      | (_, some err) => (some err, [.nginxStop, .psQuery])
      | (running, none) =>
        if running then (some "停止Nginx失败", [.nginxStop, .psQuery])
        else (none, [.nginxStop, .psQuery]) := by
  unfold StopNginx
  rcases h with h | h
  · rw [h]
  · have h1 : decide (0 ≠ sh.stop.res.length) = false := by
      rw [h]; rfl
    rw [h1]
    cases sh.stop.err <;> rfl

theorem stopErrorSurfaced_eq_false_iff (sh : Shell) :
    stopErrorSurfaced sh = false ↔ (sh.stop.err = none ∨ sh.stop.res = "") := by
  unfold stopErrorSurfaced
  cases herr : sh.stop.err with
  | none => simp
  | some e =>
    by_cases hres : sh.stop.res = ""
    · have h1 : decide (0 ≠ sh.stop.res.length) = false := by
        rw [hres]; rfl
      simp [h1, hres]
    · have h1 : decide (0 ≠ sh.stop.res.length) = true :=
        decide_eq_true ((length_ne_zero_iff _).2 hres)
      simp [h1, hres]

/-! ## The claims on the supervisor -/

/-- C13, the claim as stated fails: a listing that fails without output
yields no error, and a listing that fails with output yields an error. -/
theorem C13_counterexample :
    (silentFailureShell.query.err ≠ none ∧ silentFailureShell.query.res = "" ∧
      CheckNginxIsRunning silentFailureShell = (false, none)) ∧
    (failingShell.query.err ≠ none ∧ failingShell.query.res ≠ "" ∧
      CheckNginxIsRunning failingShell = (false, some "检查Nginx状态失败: exit status 2")) :=
  ⟨⟨by decide, rfl, rfl⟩, ⟨by decide, by decide, rfl⟩⟩

/-- C13, amended: `CheckNginxIsRunning` returns an error if and only if the
listing failed and yielded some output; the error carries the cause, and a
listing without output, failed or not, gives `false` and no error. -/
theorem C13_error_iff_failed_with_output (sh : Shell) :
    ((CheckNginxIsRunning sh).2 ≠ none ↔ (sh.query.err ≠ none ∧ sh.query.res ≠ "")) ∧
    (∀ e, sh.query.err = some e → sh.query.res ≠ "" →
      CheckNginxIsRunning sh = (false, some ("检查Nginx状态失败: " ++ e))) ∧
    (sh.query.res = "" → CheckNginxIsRunning sh = (false, none)) := by
  refine ⟨?_, fun e he hr => CheckNginxIsRunning_surfaced sh e he hr, ?_⟩
  · cases herr : sh.query.err with
    | none =>
      rw [CheckNginxIsRunning_tolerated sh (Or.inl herr)]
      simp
    | some e =>
      by_cases hres : sh.query.res = ""
      · rw [CheckNginxIsRunning_tolerated sh (Or.inr hres)]
        simp [hres]
      · rw [CheckNginxIsRunning_surfaced sh e herr hres]
        simp [hres]
  · intro hres
    rw [CheckNginxIsRunning_tolerated sh (Or.inr hres), hres]
    rfl

/-- C13 (amended) at the two shells of the counterexample. -/
theorem C13_error_iff_failed_with_output_witness :
    (CheckNginxIsRunning failingShell = (false, some "检查Nginx状态失败: exit status 2")) ∧
    (CheckNginxIsRunning silentFailureShell = (false, none)) :=
  ⟨(C13_error_iff_failed_with_output failingShell).2.1 "exit status 2" rfl (by decide),
    (C13_error_iff_failed_with_output silentFailureShell).2.2 rfl⟩

/-- C14, the claim as stated fails: a stop command that fails without output
does not have its error returned (the running state is checked and the call
succeeds), and a stop command that fails with output has its error returned
without any check of the running state. -/
theorem C14_counterexample :
    (stoppedShell.stop.err ≠ none ∧ stoppedShell.stop.res = "" ∧
      StopNginx stoppedShell = (none, [.nginxStop, .psQuery])) ∧
    (failingShell.stop.err ≠ none ∧ failingShell.stop.res ≠ "" ∧
      StopNginx failingShell = (some "停止Nginx失败: exit status 1", [.nginxStop])) :=
  ⟨⟨by decide, rfl, rfl⟩, ⟨by decide, by decide, rfl⟩⟩

/-- C14, amended: `StopNginx` returns the error of the stop command, without
checking the running state, if and only if the stop command failed and
produced some output; in every other case it goes on to check the running
state. -/
theorem C14_stop_error_iff_failed_with_output (sh : Shell) :
    (∀ e, sh.stop.err = some e → sh.stop.res ≠ "" →
      StopNginx sh = (some ("停止Nginx失败: " ++ e), [.nginxStop])) ∧
    ((sh.stop.err = none ∨ sh.stop.res = "") →
      (StopNginx sh).2 = [.nginxStop, .psQuery]) ∧
    ((StopNginx sh).2 = [.nginxStop] ↔ (sh.stop.err ≠ none ∧ sh.stop.res ≠ "")) := by
  have hver : (sh.stop.err = none ∨ sh.stop.res = "") →
      (StopNginx sh).2 = [.nginxStop, .psQuery] := by
    intro h
    rw [StopNginx_verified sh h]
    rcases hc : CheckNginxIsRunning sh with ⟨running, _ | e⟩
    · cases running <;> simp
    · simp
  refine ⟨fun e he hr => StopNginx_surfaced sh e he hr, hver, ?_⟩
  cases herr : sh.stop.err with
  | none =>
    rw [hver (Or.inl herr)]
    simp
  | some e =>
    by_cases hres : sh.stop.res = ""
    · rw [hver (Or.inr hres)]
      simp [hres]
    · rw [StopNginx_surfaced sh e herr hres]
      simp [hres]

/-- C14 (amended) at the two shells of the counterexample. -/
theorem C14_stop_error_iff_failed_with_output_witness :
    (StopNginx failingShell = (some "停止Nginx失败: exit status 1", [.nginxStop])) ∧
    ((StopNginx stoppedShell).2 = [.nginxStop, .psQuery]) :=
  ⟨(C14_stop_error_iff_failed_with_output failingShell).1 "exit status 1" rfl (by decide),
    (C14_stop_error_iff_failed_with_output stoppedShell).2.1 (Or.inr rfl)⟩

/-- C15: whenever `CheckNginxIsRunning` returns no error, it returns `true`
if and only if the output of the listing is not empty once trimmed, that
is, if and only if the output holds a character that is not white space; it
returns `false` for an empty output and for an output of white space only. -/
theorem C15_running_iff_output_not_blank (sh : Shell)
    (hno : (CheckNginxIsRunning sh).2 = none) :
    ((CheckNginxIsRunning sh).1 = true ↔ stringsTrimSpace sh.query.res ≠ "") ∧
    ((CheckNginxIsRunning sh).1 = true ↔ ∃ c ∈ sh.query.res.data, isSpace c = false) ∧
    (sh.query.res = "" → (CheckNginxIsRunning sh).1 = false) ∧
    ((∀ c ∈ sh.query.res.data, isSpace c = true) → (CheckNginxIsRunning sh).1 = false) := by
  have htol : sh.query.err = none ∨ sh.query.res = "" := by
    cases herr : sh.query.err with
    | none => exact Or.inl rfl
    | some e =>
      by_cases hres : sh.query.res = ""
      · exact Or.inr hres
      · rw [CheckNginxIsRunning_surfaced sh e herr hres] at hno
        simp at hno
  have h1 : (CheckNginxIsRunning sh).1 = true ↔ stringsTrimSpace sh.query.res ≠ "" := by
    rw [CheckNginxIsRunning_tolerated sh htol]
    simp only [decide_eq_true_eq, ne_eq]
    exact ⟨fun h h2 => h h2.symm, fun h h2 => h h2.symm⟩
  have h2 : (CheckNginxIsRunning sh).1 = true ↔ ∃ c ∈ sh.query.res.data, isSpace c = false := by
    rw [h1, ne_eq, stringsTrimSpace_eq_empty_iff]
    simp
  refine ⟨h1, h2, ?_, ?_⟩
  · intro hres
    cases hb : (CheckNginxIsRunning sh).1 with
    | false => rfl
    | true =>
      obtain ⟨c, hc, _⟩ := h2.1 hb
      rw [hres] at hc
      simp at hc
  · intro hall
    cases hb : (CheckNginxIsRunning sh).1 with
    | false => rfl
    | true =>
      obtain ⟨c, hc, hsp⟩ := h2.1 hb
      rw [hall c hc] at hsp
      simp at hsp

/-- C15 at a shell whose listing prints white space only, with the results
for a process id and for a blank output. -/
theorem C15_running_iff_output_not_blank_witness :
    (((CheckNginxIsRunning blankShell).1 = true ↔
        stringsTrimSpace blankShell.query.res ≠ "") ∧
      ((CheckNginxIsRunning blankShell).1 = true ↔
        ∃ c ∈ blankShell.query.res.data, isSpace c = false) ∧
      (blankShell.query.res = "" → (CheckNginxIsRunning blankShell).1 = false) ∧
      ((∀ c ∈ blankShell.query.res.data, isSpace c = true) →
        (CheckNginxIsRunning blankShell).1 = false)) ∧
    CheckNginxIsRunning blankShell = (false, none) ∧
    CheckNginxIsRunning runningShell = (true, none) ∧
    stringsTrimSpace " 1234\n" = "1234" :=
  ⟨C15_running_iff_output_not_blank blankShell rfl, by decide, by decide, by decide⟩

/-- C16: when the stop command produces no output, whether it fails or not,
and the listing that follows yields no output, `StopNginx` returns no
error. -/
theorem C16_stop_when_stopped_succeeds (sh : Shell)
    (hstop : sh.stop.res = "") (hquery : sh.query.res = "") :
    StopNginx sh = (none, [.nginxStop, .psQuery]) := by
  rw [StopNginx_verified sh (Or.inr hstop),
    CheckNginxIsRunning_tolerated sh (Or.inr hquery), hquery]
  rfl

/-- C16 at a shell whose stop command fails without output. -/
theorem C16_stop_when_stopped_succeeds_witness :
    stoppedShell.stop.err = some "exit status 1" ∧
    StopNginx stoppedShell = (none, [.nginxStop, .psQuery]) ∧
    StopNginx { stoppedShell with stop := ⟨"", none⟩ } = (none, [.nginxStop, .psQuery]) :=
  ⟨rfl, C16_stop_when_stopped_succeeds stoppedShell rfl rfl,
    C16_stop_when_stopped_succeeds { stoppedShell with stop := ⟨"", none⟩ } rfl rfl⟩

/-- C17: the stop command is run exactly once and the listing at most once;
when the error of the stop command is not returned, the listing is run
once, after the stop command, and the result of `StopNginx` is that of this
one call of `CheckNginxIsRunning`: its error unchanged if it fails, the
generic stop-failed error if it reports running, success otherwise. -/
theorem C17_stop_decided_by_one_check (sh : Shell) :
    (StopNginx sh).2.count .nginxStop = 1 ∧ (StopNginx sh).2.count .psQuery ≤ 1 ∧
    (stopErrorSurfaced sh = false →
      (StopNginx sh).2 = [.nginxStop, .psQuery] ∧
      (∀ running e, CheckNginxIsRunning sh = (running, some e) →
        (StopNginx sh).1 = some e) ∧
      (CheckNginxIsRunning sh = (true, none) → (StopNginx sh).1 = some "停止Nginx失败") ∧
      (CheckNginxIsRunning sh = (false, none) → (StopNginx sh).1 = none)) := by
  have hver : stopErrorSurfaced sh = false →
      (StopNginx sh).2 = [.nginxStop, .psQuery] ∧
      (∀ running e, CheckNginxIsRunning sh = (running, some e) →
        (StopNginx sh).1 = some e) ∧
      (CheckNginxIsRunning sh = (true, none) → (StopNginx sh).1 = some "停止Nginx失败") ∧
      (CheckNginxIsRunning sh = (false, none) → (StopNginx sh).1 = none) := by
    intro h
    have h1 := (stopErrorSurfaced_eq_false_iff sh).1 h
    rw [StopNginx_verified sh h1]
    refine ⟨?_, ?_, ?_, ?_⟩
    · rcases hc : CheckNginxIsRunning sh with ⟨running, _ | e⟩
      · cases running <;> simp
      · simp
    · intro running e hc
      rw [hc]
    · intro hc
      rw [hc]
      rfl
    · intro hc
      rw [hc]
      rfl
  by_cases hs : stopErrorSurfaced sh = false
  · have h1 := (hver hs).1
    refine ⟨?_, ?_, hver⟩
    · rw [h1]; decide
    · rw [h1]; decide
  · have h2 : ¬ (sh.stop.err = none ∨ sh.stop.res = "") :=
      fun h => hs ((stopErrorSurfaced_eq_false_iff sh).2 h)
    simp only [not_or] at h2
    obtain ⟨e, he⟩ := Option.ne_none_iff_exists'.1 h2.1
    have h3 := StopNginx_surfaced sh e he h2.2
    refine ⟨?_, ?_, hver⟩
    · rw [h3]; simp
    · rw [h3]; simp

/-- C17 at a shell whose stop command succeeds while the process is still
listed, and at one whose listing fails with output. -/
theorem C17_stop_decided_by_one_check_witness :
    StopNginx runningShell = (some "停止Nginx失败", [.nginxStop, .psQuery]) ∧
    (StopNginx { failingShell with stop := ⟨"", none⟩ }).1 =
      some "检查Nginx状态失败: exit status 2" ∧
    (StopNginx stoppedShell).1 = none :=
  ⟨Prod.ext (((C17_stop_decided_by_one_check runningShell).2.2 rfl).2.2.1 rfl)
      ((C17_stop_decided_by_one_check runningShell).2.2 rfl).1,
    ((C17_stop_decided_by_one_check { failingShell with stop := ⟨"", none⟩ }).2.2 rfl).2.1
      false "检查Nginx状态失败: exit status 2" rfl,
    ((C17_stop_decided_by_one_check stoppedShell).2.2 rfl).2.2.2 rfl⟩

end Webserver
